import Mathlib

/-!
# vaultutil: credential lifecycle

A shallow embedding of the Go package `vaultutil` (files `config.go`, `aws.go`,
`azure.go`, `vault.go`) together with the properties proved about it.

Conventions of the embedding:

* Go `int64` values are `Int`s; where the source relies on machine arithmetic
  the result is reduced with `wrapInt64`.
* Go `string`s are Lean `String`s.
* A Go `map[string]string` is a `GoMap`, an association list in which a key
  occurs at most once; two maps are the same map when `get?` agrees on every key.
* A Go `error` is an `Option GoError` (`none` is `nil`); a Go `(T, error)`
  result is an `Except GoError T`.
* A method with a pointer receiver returns the updated receiver next to its result.
* A `time.Time` is given by the second its `Unix()` returns and its nanoseconds;
  instants are compared as Go holds them, by the `int64` seconds since year 1
  (`Time.internalSec`).
* The process environment, the wall clock and the external `vault` binary are
  the fields of `Sys`; `klog` output is not modelled.
-/

namespace Vaultutil

/-! ## Machine integers -/

/-- The smallest `int64`. -/
def minInt64 : Int := -9223372036854775808

/-- The largest `int64`. -/
def maxInt64 : Int := 9223372036854775807

/-- The largest `uint64`. -/
def maxUint64 : Nat := 18446744073709551615

/-- The values an `int64` can hold. -/
def IsInt64 (x : Int) : Prop := minInt64 ≤ x ∧ x ≤ maxInt64

instance (x : Int) : Decidable (IsInt64 x) := by
  unfold IsInt64; infer_instance

/-- Two's-complement reduction of an integer to the `int64` range. -/
def wrapInt64 (x : Int) : Int := (x + 9223372036854775808) % 18446744073709551616 - 9223372036854775808

/-! ## time -/

/-- A `time.Time` without monotonic reading. Go holds an instant as the
    `int64` number of seconds since January 1 of year 1 (`Time.internalSec`)
    and the nanoseconds within that second (`0 ≤ nsec < 10^9`). The embedding
    keeps in `sec` the `int64` that `Unix()` returns for the instant, from
    which the internal count is recovered, and in `nsec` the nanoseconds. -/
structure Time where
  sec : Int
  nsec : Int
  deriving DecidableEq, Repr

/-- The constant `unixToInternal` of package `time`: the seconds from
    January 1 of year 1 to January 1, 1970. -/
def unixToInternal : Int := 62135596800

/-- Go `Time.sec()`: the seconds since January 1 of year 1 as Go holds them,
    the `int64` sum `sec + unixToInternal`. The sum wraps around, so a Unix
    second above 9223371974719179007 is held as an instant in the far past. -/
def Time.internalSec (t : Time) : Int := wrapInt64 (t.sec + unixToInternal)

/-- Go `time.Unix(sec, nsec)` for an `nsec` already within `[0, 10^9)`: the
    time whose `Unix()` is `sec`; the instant it denotes is given by
    `Time.internalSec`, with the wrap-around of `sec + unixToInternal`. -/
def Time.ofUnix (sec nsec : Int) : Time := ⟨sec, nsec⟩

/-- Go `Time.Unix()`: seconds since the epoch. -/
def Time.Unix (t : Time) : Int := t.sec

/-- Nanoseconds in a `time.Second`. -/
def Second : Int := 1000000000

/-- The exact number of nanoseconds from the instant `u` to the instant `t`,
    both as Go holds them. -/
def Time.nanosBetween (t u : Time) : Int :=
  (t.internalSec - u.internalSec) * Second + (t.nsec - u.nsec)

/-- Go `Time.Sub`: the duration `t - u` in nanoseconds, saturating at the
    smallest and largest `time.Duration`. -/
def Time.Sub (t u : Time) : Int :=
  let d := t.nanosBetween u
  if d < minInt64 then minInt64 else if d > maxInt64 then maxInt64 else d

/-- Go `time.Since(created)` when the clock reads `now`. -/
def Since (created now : Time) : Int := now.Sub created

/-! ## config.go -/

/-- The constant `BaseURLGovCloud`. -/
def BaseURLGovCloud : String := "amazonaws-us-gov.com"

/-- The constant `BaseURLDefault`. -/
def BaseURLDefault : String := "aws.amazon.com"

/-- The type `Config`. -/
structure Config where
  AWSBaseURL : String
  Path : String
  Role : String
  BufferSeconds : Int
  deriving DecidableEq, Repr

/-- Go `NewConfig`. -/
def NewConfig (partition role path : String) (buffer : Int) : Config :=
  let ret : Config := { AWSBaseURL := "", Path := path, Role := role, BufferSeconds := buffer }
  if partition = "aws" then { ret with AWSBaseURL := BaseURLDefault }
  else if partition = "gov" then { ret with AWSBaseURL := BaseURLGovCloud }
  else ret

/-- Go `expired`, the clock reading `now` made explicit:
    `elapsed := time.Since(created)`,
    `d := time.Second * time.Duration(duration-buffer)`, `return elapsed > d`.
    The subtraction and the multiplication are `int64` operations. -/
def expired (buffer duration : Int) (created now : Time) : Bool :=
  let elapsed := Since created now
  let d := wrapInt64 (Second * wrapInt64 (duration - buffer))
  decide (elapsed > d)

/-! ## Errors -/

/-- The two causes a `*strconv.NumError` reports. -/
inductive NumErr where
  | ErrSyntax
  | ErrRange
  deriving DecidableEq, Repr

/-- A Go `error` value: a `*strconv.NumError` (function, offending input,
    cause) or the result of `fmt.Errorf` (its formatted message). -/
inductive GoError where
  | numError (fn num : String) (err : NumErr)
  | errorf (msg : String)
  deriving DecidableEq, Repr

/-! ## strconv -/

/-- The character of the decimal digit `d`, that is the byte `'0' + d`. -/
def digitChar (d : Nat) : Char := Char.ofNat (48 + d)

/-- Decimal digits of `n`, most significant first; `fuel` bounds the number of
    digits and `n + 1` always suffices. -/
def decimalDigits : Nat → Nat → List Char
  | 0, _ => []
  | fuel + 1, n =>
    if n < 10 then [digitChar n] else decimalDigits fuel (n / 10) ++ [digitChar (n % 10)]

/-- Go `strconv.FormatUint(n, 10)`. -/
def FormatUint (n : Nat) : String := String.mk (decimalDigits (n + 1) n)

/-- Go `strconv.FormatInt(i, 10)`: a minus sign for a negative number, then
    the decimal digits of its magnitude. -/
def FormatInt (i : Int) : String :=
  if i < 0 then String.mk ('-' :: decimalDigits (i.natAbs + 1) i.natAbs)
  else FormatUint i.natAbs

/-- The digit loop of Go `strconv.ParseUint(s, 10, 64)`, `n` being the value
    read so far. A byte outside `'0'..'9'` is a syntax error (a letter has a
    digit value of at least the base); `cutoff` is `maxUint64/10 + 1`. -/
def parseUintLoop : List Char → Nat → Except NumErr Nat
  | [], n => .ok n
  | c :: cs, n =>
    if '0' ≤ c ∧ c ≤ '9' then
      let d := c.toNat - '0'.toNat
      if n ≥ maxUint64 / 10 + 1 then .error .ErrRange
      else
        let n := (n * 10) % 18446744073709551616
        let n1 := (n + d) % 18446744073709551616
        if n1 < n ∨ n1 > maxUint64 then .error .ErrRange
        else parseUintLoop cs n1
    else .error .ErrSyntax

/-- Go `strconv.ParseUint(s, 10, 64)`. -/
def ParseUint (s : List Char) : Except NumErr Nat :=
  match s with
  | [] => .error .ErrSyntax
  | _ => parseUintLoop s 0

/-- The end of Go `strconv.ParseInt(s, 10, 64)`: the check of the magnitude
    `un` against `cutoff = 1 << 63`, then the conversion `int64(un)` and the
    negation. -/
def parseIntRange (s : String) (neg : Bool) (un : Nat) : Except GoError Int :=
  if neg = false ∧ un ≥ 9223372036854775808 then .error (.numError "ParseInt" s .ErrRange)
  else if neg = true ∧ un > 9223372036854775808 then .error (.numError "ParseInt" s .ErrRange)
  else
    let n := wrapInt64 un
    .ok (if neg then wrapInt64 (-n) else n)

/-- Go `strconv.ParseInt(s, 10, 64)`: an optional sign, then `ParseUint`; a
    syntax error is returned at once, a range error of `ParseUint` leaves the
    magnitude at `maxUint64` for the range check. -/
def ParseInt (s : String) : Except GoError Int :=
  match s.data with
  | [] => .error (.numError "ParseInt" s .ErrSyntax)
  | c :: rest =>
    let neg : Bool := decide (c = '-')
    let body := if c = '+' ∨ c = '-' then rest else c :: rest
    match ParseUint body with
    | .error .ErrSyntax => .error (.numError "ParseInt" s .ErrSyntax)
    | .error .ErrRange => parseIntRange s neg maxUint64
    | .ok un => parseIntRange s neg un

/-- Value of a most-significant-first list of decimal digits read after `acc`. -/
def readDigits (ds : List Nat) (acc : Nat) : Nat := ds.foldl (fun a d => 10 * a + d) acc

/-- The string `s` is a base-10 numeral of the integer `n`: an optional sign
    `+` or `-`, then one or more decimal digits whose value is the magnitude
    of `n`. -/
def IsDecimalOf (s : String) (n : Int) : Prop :=
  ∃ ds : List Nat, ds ≠ [] ∧ (∀ d ∈ ds, d < 10) ∧
    ((s.data = ds.map digitChar ∧ n = (Nat.ofDigits 10 ds.reverse : Nat)) ∨
     (s.data = '+' :: ds.map digitChar ∧ n = (Nat.ofDigits 10 ds.reverse : Nat)) ∨
     (s.data = '-' :: ds.map digitChar ∧ n = -((Nat.ofDigits 10 ds.reverse : Nat) : Int)))

/-- The string `s` is a base-10 numeral of some signed 64-bit integer. -/
def IsDecimalInt64 (s : String) : Prop := ∃ n : Int, IsDecimalOf s n ∧ IsInt64 n

/-! ## strings -/

/-- Go `unicode.IsSpace`. -/
def isSpace (c : Char) : Bool :=
  let n := c.toNat
  (9 ≤ n ∧ n ≤ 13) ∨ n = 32 ∨ n = 133 ∨ n = 160 ∨ n = 5760 ∨ (8192 ≤ n ∧ n ≤ 8202) ∨
    n = 8232 ∨ n = 8233 ∨ n = 8239 ∨ n = 8287 ∨ n = 12288

/-- Go `strings.TrimSpace`. -/
def TrimSpace (s : String) : String :=
  String.mk ((s.data.dropWhile isSpace).reverse.dropWhile isSpace).reverse

/-- Go `strings.Contains(s, sub)` on character lists. -/
def containsChars (s sub : List Char) : Bool :=
  match s with
  | [] => sub.isEmpty
  | c :: cs => sub.isPrefixOf (c :: cs) || containsChars cs sub

/-- Go `strings.Contains`. -/
def Contains (s sub : String) : Bool := containsChars s.data sub.data

/-! ## Maps and the process environment -/

/-- A Go `map[string]string`, as a list of entries with distinct keys. -/
structure GoMap where
  entries : List (String × String)
  deriving DecidableEq, Repr

/-- Go `make(map[string]string)`. -/
def GoMap.make : GoMap := ⟨[]⟩

/-- Go `m[k] = v`: the entry for `k` is replaced or added. -/
def GoMap.set (m : GoMap) (k v : String) : GoMap :=
  ⟨(k, v) :: m.entries.filter (fun p => p.1 ≠ k)⟩

/-- Lookup of a key in a list of entries. -/
def lookupEntry (k : String) : List (String × String) → Option String
  | [] => none
  | p :: rest => if p.1 = k then some p.2 else lookupEntry k rest

/-- Go `v, ok := m[k]`. -/
def GoMap.get? (m : GoMap) (k : String) : Option String := lookupEntry k m.entries

/-- Go `len(m)`. -/
def GoMap.len (m : GoMap) : Nat := m.entries.length

/-- Go `os.Getenv`: the value of the variable, or the empty string when it is unset. -/
def Getenv (env : GoMap) (k : String) : String := (env.get? k).getD ""

/-- The variable `k` is set in `env` to a base-10 numeral of a signed 64-bit
    integer. -/
def EnvHoldsInt64 (env : GoMap) (k : String) : Prop :=
  ∃ v, env.get? k = some v ∧ IsDecimalInt64 v

/-- The variable `k` is unset in `env` or set to the empty string. -/
def EnvUnsetOrEmpty (env : GoMap) (k : String) : Prop :=
  env.get? k = none ∨ env.get? k = some ""

/-! ## The outside world -/

/-- What running an external command gave: the combined output, whether
    `CombinedOutput` returned an error, and `ProcessState.ExitCode()`. -/
structure CmdOutcome where
  data : String
  failed : Bool
  exitCode : Int
  deriving DecidableEq, Repr

/-- The world a call runs in: the process environment, the successive readings
    of the wall clock with the number of readings taken so far, the path
    `exec.LookPath` resolves a program name to, the behaviour of an external
    command given its argument vector, and the commands run so far. -/
structure Sys where
  env : GoMap
  clock : Nat → Time
  reads : Nat
  lookPath : String → Option String
  run : List String → CmdOutcome
  calls : List (List String)

/-- Go `time.Now()`: the next reading of the clock. -/
def Sys.Now (s : Sys) : Time × Sys := (s.clock s.reads, { s with reads := s.reads + 1 })

/-- Go `cmd.CombinedOutput()` for `exec.Command(name, arg...)`. -/
def Sys.CombinedOutput (s : Sys) (argv : List String) : CmdOutcome × Sys :=
  (s.run argv, { s with calls := s.calls ++ [argv] })

/-- Go `cmd.String()`: the resolved path followed by the arguments, or the
    argument vector as given when the program was not found. -/
def Sys.cmdString (s : Sys) (argv : List String) : String :=
  match argv with
  | [] => ""
  | name :: args =>
    match s.lookPath name with
    | some path => " ".intercalate (path :: args)
    | none => " ".intercalate (name :: args)

/-! ## aws.go -/

/-- The type `AWSCredentials`. -/
structure AWSCredentials where
  AccessKeyID : String
  SecretAccessKey : String
  SessionToken : String
  Created : Time
  Duration : Int
  LeaseID : String
  EnvMap : GoMap
  deriving DecidableEq, Repr

/-- The `data` object of `vaultAWSCredentials`. -/
structure vaultAWSData where
  AccessKey : String
  SecretKey : String
  SecurityToken : String
  deriving DecidableEq, Repr

/-- The type `vaultAWSCredentials`; its `Warnings` field, an untyped JSON value
    that is never read, is left out. -/
structure vaultAWSCredentials where
  RequestID : String
  LeaseID : String
  LeaseDuration : Int
  Renewable : Bool
  Data : vaultAWSData
  deriving DecidableEq, Repr

/-- The zero `time.Time`: January 1 of year 1, 00:00:00 UTC. -/
def Time.zero : Time := ⟨-62135596800, 0⟩

/-- The zero value `&AWSCredentials{}`. -/
def AWSCredentials.zero : AWSCredentials :=
  { AccessKeyID := "", SecretAccessKey := "", SessionToken := "", Created := Time.zero,
    Duration := 0, LeaseID := "", EnvMap := GoMap.make }

/-- Go `(*AWSCredentials).Expired`, the clock reading made explicit. -/
def AWSCredentials.Expired (a : AWSCredentials) (buffer : Int) (now : Time) : Bool :=
  expired buffer a.Duration a.Created now

/-- Go `(*AWSCredentials).buildEnv`: the updated receiver and the error. -/
def AWSCredentials.buildEnv (a : AWSCredentials) : AWSCredentials × Option GoError :=
  let m := GoMap.make
  if a.AccessKeyID ≠ "" then
    let m := m.set "AWS_ACCESS_KEY_ID" a.AccessKeyID
    if a.SecretAccessKey ≠ "" then
      let m := m.set "AWS_SECRET_ACCESS_KEY" a.SecretAccessKey
      if a.SessionToken ≠ "" then
        let m := m.set "AWS_SESSION_TOKEN" a.SessionToken
        let m := m.set "AWS_SECURITY_TOKEN" a.SessionToken
        if a.LeaseID ≠ "" then
          let m := m.set "AWS_SESSION_VAULT_LEASE_ID" a.LeaseID
          let m := m.set "AWS_SESSION_DURATION" (FormatInt a.Duration)
          let m := m.set "AWS_SESSION_START" (FormatInt a.Created.Unix)
          ({ a with EnvMap := m }, none)
        else
          ({ a with EnvMap := m }, some (.errorf "cannot set env: vault lease id was empty"))
      else
        ({ a with EnvMap := m }, some (.errorf "cannot set env: session token was empty"))
    else
      ({ a with EnvMap := m }, some (.errorf "cannot set env: secret access key was empty"))
  else
    ({ a with EnvMap := m }, some (.errorf "cannot set env: access key id was empty"))

/-- Go `(*AWSCredentials).ReadFromEnv`: the updated receiver and the error. -/
def AWSCredentials.ReadFromEnv (a : AWSCredentials) (env : GoMap) :
    AWSCredentials × Option GoError :=
  match ParseInt (Getenv env "AWS_SESSION_START") with
  | .error err => (a, some err)
  | .ok created =>
    match ParseInt (Getenv env "AWS_SESSION_DURATION") with
    | .error err => (a, some err)
    | .ok duration =>
      let a := { a with
        AccessKeyID := Getenv env "AWS_ACCESS_KEY_ID"
        SecretAccessKey := Getenv env "AWS_SECRET_ACCESS_KEY"
        SessionToken := Getenv env "AWS_SESSION_TOKEN"
        LeaseID := Getenv env "AWS_SESSION_VAULT_LEASE_ID"
        Created := Time.ofUnix created 0
        Duration := duration }
      match a.buildEnv with
      | (a, some err) => (a, some err)
      | (a, none) => (a, none)

/-- Go `Config.AWSLogin`; `unmarshal` is `json.Unmarshal` into a
    `vaultAWSCredentials`, giving the decoded value or the decoder's message. -/
def Config.AWSLogin (c : Config) (unmarshal : String → Except String vaultAWSCredentials)
    (s : Sys) : Except GoError AWSCredentials × Sys :=
  let endpoint := c.Path ++ "/sts/" ++ c.Role
  let (out, s) := s.CombinedOutput ["vault", "write", endpoint, "-format=json"]
  if out.failed then
    let output := TrimSpace out.data
    (.error (.errorf ("vault aws credentials failed with status " ++ FormatInt out.exitCode
      ++ ": " ++ output)), s)
  else
    match unmarshal out.data with
    | .error msg => (.error (.errorf ("error unmarshaling vault token: " ++ msg)), s)
    | .ok creds =>
      let (now, s) := s.Now
      let ret : AWSCredentials :=
        { AccessKeyID := creds.Data.AccessKey
          SecretAccessKey := creds.Data.SecretKey
          SessionToken := creds.Data.SecurityToken
          Created := now
          Duration := creds.LeaseDuration
          LeaseID := creds.LeaseID
          EnvMap := GoMap.make }
      match ret.buildEnv with
      | (_, some err) => (.error err, s)
      | (ret, none) => (.ok ret, s)

/-- Go `Config.NewAWSCredentials`. -/
def Config.NewAWSCredentials (c : Config)
    (unmarshal : String → Except String vaultAWSCredentials) (s : Sys) :
    Except GoError AWSCredentials × Sys :=
  let creds := AWSCredentials.zero
  match creds.ReadFromEnv s.env with
  | (creds, none) =>
    let (now, s) := s.Now
    if creds.Expired c.BufferSeconds now then
      match c.AWSLogin unmarshal s with
      | (.error err, s) => (.error err, s)
      | (.ok newCreds, s) => (.ok newCreds, s)
    else (.ok creds, s)
  | (_, some _) =>
    match c.AWSLogin unmarshal s with
    | (.error err, s) => (.error err, s)
    | (.ok newCreds, s) => (.ok newCreds, s)

/-! ## azure.go -/

/-- The type `AzureCredentials`. -/
structure AzureCredentials where
  ClientID : String
  ClientSecret : String
  Created : Time
  Duration : Int
  LeaseID : String
  EnvMap : GoMap
  deriving DecidableEq, Repr

/-- The `data` object of `vaultAzureCredentials`. -/
structure vaultAzureData where
  ClientID : String
  ClientSecret : String
  deriving DecidableEq, Repr

/-- The type `vaultAzureCredentials`; its `Warnings` field, an untyped JSON
    value that is never read, is left out. -/
structure vaultAzureCredentials where
  RequestID : String
  LeaseID : String
  LeaseDuration : Int
  Renewable : Bool
  Data : vaultAzureData
  deriving DecidableEq, Repr

/-- The zero value `&AzureCredentials{}`. -/
def AzureCredentials.zero : AzureCredentials :=
  { ClientID := "", ClientSecret := "", Created := Time.zero, Duration := 0, LeaseID := "",
    EnvMap := GoMap.make }

/-- Go `(*AzureCredentials).Expired`, the clock reading made explicit. -/
def AzureCredentials.Expired (az : AzureCredentials) (buffer : Int) (now : Time) : Bool :=
  expired buffer az.Duration az.Created now

/-- Go `(*AzureCredentials).buildEnv`: the updated receiver and the error. -/
def AzureCredentials.buildEnv (az : AzureCredentials) : AzureCredentials × Option GoError :=
  let m := GoMap.make
  if az.ClientID ≠ "" then
    let m := m.set "ARM_CLIENT_ID" az.ClientID
    if az.ClientSecret ≠ "" then
      let m := m.set "ARM_CLIENT_SECRET" az.ClientSecret
      if az.LeaseID ≠ "" then
        let m := m.set "ARM_SESSION_VAULT_LEASE_ID" az.LeaseID
        let m := m.set "ARM_SESSION_DURATION" (FormatInt az.Duration)
        let m := m.set "ARM_SESSION_START" (FormatInt az.Created.Unix)
        ({ az with EnvMap := m }, none)
      else
        ({ az with EnvMap := m }, some (.errorf "cannot set env: vault least id was empty"))
    else
      ({ az with EnvMap := m }, some (.errorf "cannot set env: client secret was empty"))
  else
    ({ az with EnvMap := m }, some (.errorf "cannot set env: client id was empty"))

/-- Go `(*AzureCredentials).ReadFromEnv`: the updated receiver and the error. -/
def AzureCredentials.ReadFromEnv (az : AzureCredentials) (env : GoMap) :
    AzureCredentials × Option GoError :=
  match ParseInt (Getenv env "ARM_SESSION_START") with
  | .error err => (az, some err)
  | .ok created =>
    match ParseInt (Getenv env "ARM_SESSION_DURATION") with
    | .error err => (az, some err)
    | .ok duration =>
      let az := { az with
        ClientID := Getenv env "ARM_CLIENT_ID"
        ClientSecret := Getenv env "ARM_CLIENT_SECRET"
        LeaseID := Getenv env "ARM_SESSION_VAULT_LEASE_ID"
        Created := Time.ofUnix created 0
        Duration := duration }
      match az.buildEnv with
      | (az, some err) => (az, some err)
      | (az, none) => (az, none)

/-- Go `Config.AzureLogin`; `unmarshal` is `json.Unmarshal` into a
    `vaultAzureCredentials`, giving the decoded value or the decoder's message. -/
def Config.AzureLogin (c : Config) (unmarshal : String → Except String vaultAzureCredentials)
    (s : Sys) : Except GoError AzureCredentials × Sys :=
  let endpoint := c.Path ++ "/creds/" ++ c.Role
  let (out, s) := s.CombinedOutput ["vault", "read", endpoint, "-format=json"]
  if out.failed then
    let output := TrimSpace out.data
    (.error (.errorf ("vault azure credentials failed with status " ++ FormatInt out.exitCode
      ++ ": " ++ output)), s)
  else
    match unmarshal out.data with
    | .error msg => (.error (.errorf ("error unmarshaling vault token: " ++ msg)), s)
    | .ok creds =>
      let (now, s) := s.Now
      let ret : AzureCredentials :=
        { ClientID := creds.Data.ClientID
          ClientSecret := creds.Data.ClientSecret
          Created := now
          Duration := creds.LeaseDuration
          LeaseID := creds.LeaseID
          EnvMap := GoMap.make }
      match ret.buildEnv with
      | (_, some err) => (.error err, s)
      | (ret, none) => (.ok ret, s)

/-- Go `Config.NewAzureCredentials`. -/
def Config.NewAzureCredentials (c : Config)
    (unmarshal : String → Except String vaultAzureCredentials) (s : Sys) :
    Except GoError AzureCredentials × Sys :=
  let creds := AzureCredentials.zero
  match creds.ReadFromEnv s.env with
  | (creds, none) =>
    let (now, s) := s.Now
    if creds.Expired c.BufferSeconds now then
      match c.AzureLogin unmarshal s with
      | (.error err, s) => (.error err, s)
      | (.ok newCreds, s) => (.ok newCreds, s)
    else (.ok creds, s)
  | (_, some _) =>
    match c.AzureLogin unmarshal s with
    | (.error err, s) => (.error err, s)
    | (.ok newCreds, s) => (.ok newCreds, s)

/-! ## vault.go -/

/-- The `data` object of `Token`. -/
structure TokenData where
  TTL : Int
  deriving DecidableEq, Repr

/-- The type `Token`, the response of `vault token lookup`. -/
structure Token where
  Data : TokenData
  deriving DecidableEq, Repr

/-- Go `execute`: the raw output and its trimmed form, or the error. -/
def execute (argv : List String) (s : Sys) : Except GoError (String × String) × Sys :=
  let (out, s) := s.CombinedOutput argv
  let output := TrimSpace out.data
  if out.failed then
    (.error (.errorf ("exit code " ++ FormatInt out.exitCode ++ " running command "
      ++ s.cmdString argv ++ ": " ++ output)), s)
  else (.ok (out.data, output), s)

/-- Go `CheckToken`; `unmarshal` is `json.Unmarshal` into a `Token`. -/
def CheckToken (unmarshal : String → Except String Token) (s : Sys) : Option GoError × Sys :=
  match execute ["vault", "token", "lookup", "-format=json"] s with
  | (.error err, s) => (some err, s)
  | (.ok (data, _), s) =>
    match unmarshal data with
    | .error msg => (some (.errorf ("error unmarshaling vault token: " ++ msg)), s)
    | .ok token =>
      if token.Data.TTL < 30 then
        (some (.errorf "vault token will expire in less than 30 seconds"), s)
      else (none, s)

/-- Go `revokeLease`. -/
def revokeLease (leaseID : String) (s : Sys) : Option GoError × Sys :=
  match execute ["vault", "lease", "revoke", leaseID] s with
  | (.error err, s) => (some err, s)
  | (.ok _, s) => (none, s)

/-! ## Theorems -/

/-! ### Decimal numerals -/

theorem digitChar_isDigit (d : Nat) (h : d < 10) :
    '0' ≤ digitChar d ∧ digitChar d ≤ '9' ∧ (digitChar d).toNat - '0'.toNat = d := by
  interval_cases d <;> decide

theorem char_eq_digitChar (c : Char) (h : '0' ≤ c ∧ c ≤ '9') :
    c.toNat - '0'.toNat < 10 ∧ digitChar (c.toNat - '0'.toNat) = c := by
  obtain ⟨h0, h9⟩ := h
  have h0' : 48 ≤ c.toNat := h0
  have h9' : c.toNat ≤ 57 := h9
  have hz : '0'.toNat = 48 := rfl
  refine ⟨by omega, ?_⟩
  unfold digitChar
  have : 48 + (c.toNat - '0'.toNat) = c.toNat := by omega
  rw [this]
  exact Char.ofNat_toNat c


theorem readDigits_nil (acc : Nat) : readDigits [] acc = acc := rfl

theorem readDigits_cons (d : Nat) (ds : List Nat) (acc : Nat) :
    readDigits (d :: ds) acc = readDigits ds (10 * acc + d) := rfl

theorem readDigits_ge (ds : List Nat) (acc : Nat) : acc ≤ readDigits ds acc := by
  induction ds generalizing acc with
  | nil => simp [readDigits_nil]
  | cons d ds ih =>
    rw [readDigits_cons]
    have := ih (10 * acc + d)
    omega

theorem readDigits_append_single (ds : List Nat) (d acc : Nat) :
    readDigits (ds ++ [d]) acc = 10 * readDigits ds acc + d := by
  simp [readDigits, List.foldl_append]

theorem readDigits_eq_ofDigits (ds : List Nat) (acc : Nat) :
    readDigits ds acc = acc * 10 ^ ds.length + Nat.ofDigits 10 ds.reverse := by
  induction ds generalizing acc with
  | nil => simp [readDigits_nil]
  | cons d ds ih =>
    rw [readDigits_cons, ih, List.reverse_cons, Nat.ofDigits_append, Nat.ofDigits_singleton,
      List.length_reverse, List.length_cons]
    ring

theorem parseUintLoop_digits (ds : List Nat) (hds : ∀ d ∈ ds, d < 10) (n : Nat)
    (h : readDigits ds n ≤ maxUint64) :
    parseUintLoop (ds.map digitChar) n = .ok (readDigits ds n) := by
  induction ds generalizing n with
  | nil => simp [parseUintLoop, readDigits_nil]
  | cons d ds ih =>
    have hd : d < 10 := hds d (List.mem_cons_self _ _)
    obtain ⟨h0, h9, hv⟩ := digitChar_isDigit d hd
    rw [readDigits_cons] at h ⊢
    have hge := readDigits_ge ds (10 * n + d)
    unfold maxUint64 at h
    simp only [List.map_cons, parseUintLoop, h0, h9, and_self, if_true, hv]
    have h1 : ¬ (n ≥ maxUint64 / 10 + 1) := by unfold maxUint64; omega
    have h2 : n * 10 % 18446744073709551616 = n * 10 := by omega
    have h3 : (n * 10 + d) % 18446744073709551616 = 10 * n + d := by omega
    have h4 : ¬ (10 * n + d < n * 10 ∨ 10 * n + d > maxUint64) := by unfold maxUint64; omega
    rw [if_neg h1, h2, h3, if_neg h4]
    exact ih (fun x hx => hds x (List.mem_cons_of_mem _ hx)) _ (by unfold maxUint64; omega)

theorem parseUintLoop_ok (cs : List Char) (n v : Nat)
    (h : parseUintLoop cs n = .ok v) :
    ∃ ds : List Nat, (∀ d ∈ ds, d < 10) ∧ cs = ds.map digitChar ∧ v = readDigits ds n ∧
      (cs ≠ [] → v ≤ maxUint64) := by
  induction cs generalizing n with
  | nil =>
    simp only [parseUintLoop, Except.ok.injEq] at h
    exact ⟨[], by simp, rfl, by simp [readDigits_nil, h], by simp⟩
  | cons c cs ih =>
    unfold parseUintLoop at h
    by_cases hc : '0' ≤ c ∧ c ≤ '9'
    · rw [if_pos hc] at h
      obtain ⟨hlt, hch⟩ := char_eq_digitChar c hc
      by_cases h1 : n ≥ maxUint64 / 10 + 1
      · rw [if_pos h1] at h; cases h
      · rw [if_neg h1] at h
        simp only at h
        by_cases h4 : (n * 10 % 18446744073709551616 + (c.toNat - '0'.toNat)) % 18446744073709551616
            < n * 10 % 18446744073709551616 ∨
            (n * 10 % 18446744073709551616 + (c.toNat - '0'.toNat)) % 18446744073709551616
            > maxUint64
        · rw [if_pos h4] at h; cases h
        · rw [if_neg h4] at h
          obtain ⟨ds, hds, hcs, hv, hmax⟩ := ih _ h
          unfold maxUint64 at h1 h4
          have h3 : (n * 10 % 18446744073709551616 + (c.toNat - '0'.toNat)) %
              18446744073709551616 = 10 * n + (c.toNat - '0'.toNat) := by omega
          rw [h3] at hv h
          refine ⟨(c.toNat - '0'.toNat) :: ds, ?_, ?_, ?_, ?_⟩
          · intro d hd
            rcases List.mem_cons.1 hd with rfl | hd
            · exact hlt
            · exact hds d hd
          · rw [List.map_cons, hch, hcs]
          · rw [readDigits_cons]; exact hv
          · intro _
            by_cases hnil : cs = []
            · subst hnil
              simp only [parseUintLoop, Except.ok.injEq] at h
              unfold maxUint64; omega
            · exact hmax hnil
    · rw [if_neg hc] at h; cases h


theorem digitChar_ne_sign (d : Nat) (h : d < 10) : digitChar d ≠ '+' ∧ digitChar d ≠ '-' := by
  interval_cases d <;> decide

theorem parseIntRange_ok_iff (s : String) (neg : Bool) (un : Nat) (n : Int) (hun : un ≤ maxUint64) :
    parseIntRange s neg un = .ok n ↔
      (n = if neg then -(un : Int) else (un : Int)) ∧ IsInt64 n := by
  unfold parseIntRange IsInt64 minInt64 maxInt64 wrapInt64
  unfold maxUint64 at hun
  cases neg
  · simp only [true_and, Bool.false_eq_true, false_and, if_false]
    split_ifs with h1
    · constructor
      · intro h; cases h
      · rintro ⟨rfl, h⟩; omega
    · simp only [Except.ok.injEq]
      constructor
      · intro h; subst h; omega
      · rintro ⟨rfl, h⟩; omega
  · simp only [Bool.true_eq_false, false_and, if_false, true_and, if_true]
    split_ifs with h1
    · constructor
      · intro h; cases h
      · rintro ⟨rfl, h⟩; omega
    · simp only [Except.ok.injEq]
      constructor
      · intro h; subst h; omega
      · rintro ⟨rfl, h⟩; omega

theorem parseIntRange_maxUint64 (s : String) (neg : Bool) (n : Int) :
    parseIntRange s neg maxUint64 ≠ .ok n := by
  unfold parseIntRange maxUint64
  cases neg <;> simp

theorem ParseUint_ok (body : List Char) (un : Nat) (h : ParseUint body = .ok un) :
    ∃ ds : List Nat, ds ≠ [] ∧ (∀ d ∈ ds, d < 10) ∧ body = ds.map digitChar ∧
      un = Nat.ofDigits 10 ds.reverse ∧ un ≤ maxUint64 := by
  cases body with
  | nil => simp [ParseUint] at h
  | cons c cs =>
    simp only [ParseUint] at h
    obtain ⟨ds, hds, hcs, hv, hmax⟩ := parseUintLoop_ok _ _ _ h
    refine ⟨ds, ?_, hds, hcs, ?_, hmax (by simp)⟩
    · rintro rfl; simp at hcs
    · rw [hv, readDigits_eq_ofDigits]; simp

theorem ParseUint_digits (ds : List Nat) (hne : ds ≠ []) (hds : ∀ d ∈ ds, d < 10)
    (h : Nat.ofDigits 10 ds.reverse ≤ maxUint64) :
    ParseUint (ds.map digitChar) = .ok (Nat.ofDigits 10 ds.reverse) := by
  have hv : readDigits ds 0 = Nat.ofDigits 10 ds.reverse := by
    rw [readDigits_eq_ofDigits]; simp
  cases ds with
  | nil => exact absurd rfl hne
  | cons d ds =>
    simp only [ParseUint, List.map_cons]
    rw [← List.map_cons, parseUintLoop_digits _ hds 0 (by rw [hv]; exact h), hv]

theorem ParseInt_ok_imp (s : String) (n : Int) (h : ParseInt s = .ok n) :
    IsDecimalOf s n ∧ IsInt64 n := by
  unfold ParseInt at h
  cases hd : s.data with
  | nil => rw [hd] at h; cases h
  | cons c rest =>
    rw [hd] at h
    simp only at h
    cases hp : ParseUint (if c = '+' ∨ c = '-' then rest else c :: rest) with
    | error e =>
      rw [hp] at h
      cases e
      · cases h
      · exact absurd h (parseIntRange_maxUint64 _ _ _)
    | ok un =>
      rw [hp] at h
      simp only at h
      obtain ⟨ds, hne, hds, hbody, hun, hmax⟩ := ParseUint_ok _ _ hp
      obtain ⟨hn, hr⟩ := (parseIntRange_ok_iff _ _ _ _ hmax).1 h
      refine ⟨⟨ds, hne, hds, ?_⟩, hr⟩
      by_cases hplus : c = '+'
      · subst hplus
        simp only [true_or, if_true] at hbody
        right; left
        refine ⟨by rw [hd, hbody], ?_⟩
        rw [hn, hun]; simp
      · by_cases hminus : c = '-'
        · subst hminus
          simp only [or_true, if_true] at hbody
          right; right
          refine ⟨by rw [hd, hbody], ?_⟩
          rw [hn, hun]; simp
        · simp only [hplus, hminus, or_self, if_false] at hbody
          left
          refine ⟨by rw [hd, hbody], ?_⟩
          rw [hn, hun]; simp [hminus]

theorem ParseInt_of_decimal (s : String) (n : Int) (hdec : IsDecimalOf s n) (hr : IsInt64 n) :
    ParseInt s = .ok n := by
  obtain ⟨ds, hne, hds, hcase⟩ := hdec
  have hr' := hr
  unfold IsInt64 minInt64 maxInt64 at hr'
  obtain ⟨d0, dt, rfl⟩ := List.exists_cons_of_ne_nil hne
  have hd0 := digitChar_ne_sign d0 (hds d0 (List.mem_cons_self _ _))
  unfold ParseInt
  rcases hcase with ⟨hs, hn⟩ | ⟨hs, hn⟩ | ⟨hs, hn⟩
  · have hmax : Nat.ofDigits 10 (d0 :: dt).reverse ≤ maxUint64 := by unfold maxUint64; omega
    rw [hs, List.map_cons]
    simp only [hd0.1, hd0.2, or_self, if_false]
    rw [← List.map_cons, ParseUint_digits _ hne hds hmax]
    simp only
    rw [parseIntRange_ok_iff _ _ _ _ hmax]
    exact ⟨by simp [hn], hr⟩
  · have hmax : Nat.ofDigits 10 (d0 :: dt).reverse ≤ maxUint64 := by unfold maxUint64; omega
    rw [hs]
    simp only [true_or, if_true]
    rw [ParseUint_digits _ hne hds hmax]
    simp only
    rw [parseIntRange_ok_iff _ _ _ _ hmax]
    exact ⟨by simp [hn], hr⟩
  · have hmax : Nat.ofDigits 10 (d0 :: dt).reverse ≤ maxUint64 := by unfold maxUint64; omega
    rw [hs]
    simp only [or_true, if_true]
    rw [ParseUint_digits _ hne hds hmax]
    simp only
    rw [parseIntRange_ok_iff _ _ _ _ hmax]
    exact ⟨by simp [hn], hr⟩

theorem ParseInt_ok_iff (s : String) (n : Int) :
    ParseInt s = .ok n ↔ IsDecimalOf s n ∧ IsInt64 n :=
  ⟨ParseInt_ok_imp s n, fun h => ParseInt_of_decimal s n h.1 h.2⟩

theorem decimalDigits_spec (fuel n : Nat) (h : n < fuel) :
    ∃ ds : List Nat, ds ≠ [] ∧ (∀ d ∈ ds, d < 10) ∧
      decimalDigits fuel n = ds.map digitChar ∧ readDigits ds 0 = n := by
  induction fuel generalizing n with
  | zero => omega
  | succ fuel ih =>
    unfold decimalDigits
    by_cases hn : n < 10
    · rw [if_pos hn]
      exact ⟨[n], by simp, by simpa using hn, by simp, by simp [readDigits]⟩
    · rw [if_neg hn]
      obtain ⟨ds, hne, hds, hdig, hval⟩ := ih (n / 10) (by omega)
      refine ⟨ds ++ [n % 10], by simp, ?_, ?_, ?_⟩
      · intro d hd
        rcases List.mem_append.1 hd with hd | hd
        · exact hds d hd
        · simp only [List.mem_singleton] at hd; omega
      · rw [hdig]; simp
      · rw [readDigits_append_single, hval]; omega

theorem FormatInt_isDecimalOf (i : Int) : IsDecimalOf (FormatInt i) i := by
  obtain ⟨ds, hne, hds, hdig, hval⟩ := decimalDigits_spec (i.natAbs + 1) i.natAbs (by omega)
  have hv : Nat.ofDigits 10 ds.reverse = i.natAbs := by
    rw [← hval, readDigits_eq_ofDigits]; simp
  refine ⟨ds, hne, hds, ?_⟩
  unfold FormatInt FormatUint
  by_cases hneg : i < 0
  · rw [if_pos hneg]
    right; right
    refine ⟨by rw [hdig], ?_⟩
    rw [hv]; omega
  · rw [if_neg hneg]
    left
    refine ⟨by rw [hdig], ?_⟩
    rw [hv]; omega

theorem ParseInt_FormatInt (i : Int) (h : IsInt64 i) : ParseInt (FormatInt i) = .ok i :=
  ParseInt_of_decimal _ _ (FormatInt_isDecimalOf i) h

/-! ### Expiration policy (`expired`) -/

theorem wrapInt64_of_isInt64 (x : Int) (h : IsInt64 x) : wrapInt64 x = x := by
  unfold IsInt64 minInt64 maxInt64 at h
  unfold wrapInt64
  omega

theorem wrapInt64_le (x : Int) : wrapInt64 x ≤ maxInt64 := by
  unfold wrapInt64 maxInt64
  omega

theorem wrapInt64_ge (x : Int) : minInt64 ≤ wrapInt64 x := by
  unfold wrapInt64 minInt64
  omega

theorem wrapInt64_nanos_ne_max (y : Int) : wrapInt64 (Second * y) ≠ maxInt64 := by
  unfold wrapInt64 maxInt64 Second
  omega

theorem wrapInt64_seconds (x : Int) (h0 : -9223372036 ≤ x) (h1 : x ≤ 9223372036) :
    wrapInt64 (Second * wrapInt64 x) = Second * x := by
  have h1 : wrapInt64 x = x :=
    wrapInt64_of_isInt64 _ (by unfold IsInt64 minInt64 maxInt64; omega)
  rw [h1]
  exact wrapInt64_of_isInt64 _ (by unfold IsInt64 minInt64 maxInt64 Second; omega)

/-- C1 (amended): for every creation time and all `buffer < duration`, `expired`
    is true whenever the time elapsed since creation exceeds `duration - buffer`
    seconds; evaluated at the instant of creation it is false provided
    `duration - buffer` is at most 9223372036, the largest number of whole
    seconds a `time.Duration` holds. -/
theorem expired_window (buffer duration : Int) (created now : Time) (hlt : buffer < duration) :
    (duration - buffer ≤ 9223372036 → expired buffer duration created created = false) ∧
    (now.nanosBetween created > (duration - buffer) * Second →
      expired buffer duration created now = true) := by
  constructor
  · intro hle
    simp only [expired, Since, Time.Sub, Time.nanosBetween, decide_eq_false_iff_not]
    rw [wrapInt64_seconds _ (by omega) hle]
    simp only [sub_self, zero_mul, add_zero]
    unfold Second minInt64 maxInt64
    norm_num
    omega
  · intro hgt
    simp only [expired, Since, Time.Sub, decide_eq_true_eq]
    generalize now.nanosBetween created = e at hgt ⊢
    by_cases hle : duration - buffer ≤ 9223372036
    · rw [wrapInt64_seconds _ (by omega) hle]
      unfold Second minInt64 maxInt64 at *
      split_ifs <;> omega
    · have h3 := wrapInt64_le (Second * wrapInt64 (duration - buffer))
      have h4 := wrapInt64_nanos_ne_max (wrapInt64 (duration - buffer))
      generalize wrapInt64 (Second * wrapInt64 (duration - buffer)) = d at h3 h4 ⊢
      unfold Second minInt64 maxInt64 at *
      split_ifs <;> omega

/-- C1 witness: buffer 30 and duration 100 give false at the instant of
    creation and true 200 seconds later. -/
theorem expired_window_witness :
    expired 30 100 ⟨1000, 0⟩ ⟨1000, 0⟩ = false ∧ expired 30 100 ⟨1000, 0⟩ ⟨1200, 0⟩ = true :=
  ⟨(expired_window 30 100 ⟨1000, 0⟩ ⟨1200, 0⟩ (by decide)).1 (by decide),
   (expired_window 30 100 ⟨1000, 0⟩ ⟨1200, 0⟩ (by decide)).2 (by decide)⟩

/-- C1 counterexample: with buffer 0 and duration 10000000000, both `int64`
    values with `buffer < duration`, `expired` is already true at the instant of
    creation, because the duration in nanoseconds wraps to a negative `int64`. -/
theorem expired_fresh_overflow :
    IsInt64 0 ∧ IsInt64 10000000000 ∧ (0 : Int) < 10000000000 ∧
      expired 0 10000000000 ⟨0, 0⟩ ⟨0, 0⟩ = true := by
  decide

/-! ### Environment maps (`buildEnv`) -/

theorem AWS_buildEnv_entries (a : AWSCredentials)
    (h1 : a.AccessKeyID ≠ "") (h2 : a.SecretAccessKey ≠ "") (h3 : a.SessionToken ≠ "")
    (h4 : a.LeaseID ≠ "") :
    a.buildEnv = ({ a with EnvMap := ⟨[
        ("AWS_SESSION_START", FormatInt a.Created.Unix),
        ("AWS_SESSION_DURATION", FormatInt a.Duration),
        ("AWS_SESSION_VAULT_LEASE_ID", a.LeaseID),
        ("AWS_SECURITY_TOKEN", a.SessionToken),
        ("AWS_SESSION_TOKEN", a.SessionToken),
        ("AWS_SECRET_ACCESS_KEY", a.SecretAccessKey),
        ("AWS_ACCESS_KEY_ID", a.AccessKeyID)]⟩ }, none) := by
  simp [AWSCredentials.buildEnv, h1, h2, h3, h4, GoMap.set, GoMap.make]

theorem Azure_buildEnv_entries (az : AzureCredentials)
    (h1 : az.ClientID ≠ "") (h2 : az.ClientSecret ≠ "") (h3 : az.LeaseID ≠ "") :
    az.buildEnv = ({ az with EnvMap := ⟨[
        ("ARM_SESSION_START", FormatInt az.Created.Unix),
        ("ARM_SESSION_DURATION", FormatInt az.Duration),
        ("ARM_SESSION_VAULT_LEASE_ID", az.LeaseID),
        ("ARM_CLIENT_SECRET", az.ClientSecret),
        ("ARM_CLIENT_ID", az.ClientID)]⟩ }, none) := by
  simp [AzureCredentials.buildEnv, h1, h2, h3, GoMap.set, GoMap.make]

theorem AWS_buildEnv_error_iff (a : AWSCredentials) :
    a.buildEnv.2 ≠ none ↔
      (a.AccessKeyID = "" ∨ a.SecretAccessKey = "" ∨ a.SessionToken = "" ∨ a.LeaseID = "") := by
  unfold AWSCredentials.buildEnv
  by_cases h1 : a.AccessKeyID = "" <;> by_cases h2 : a.SecretAccessKey = "" <;>
    by_cases h3 : a.SessionToken = "" <;> by_cases h4 : a.LeaseID = "" <;>
    simp [h1, h2, h3, h4]

theorem Azure_buildEnv_error_iff (az : AzureCredentials) :
    az.buildEnv.2 ≠ none ↔ (az.ClientID = "" ∨ az.ClientSecret = "" ∨ az.LeaseID = "") := by
  unfold AzureCredentials.buildEnv
  by_cases h1 : az.ClientID = "" <;> by_cases h2 : az.ClientSecret = "" <;>
    by_cases h3 : az.LeaseID = "" <;> simp [h1, h2, h3]

/-- C2: for every `AWSCredentials` whose `AccessKeyID`, `SecretAccessKey`,
    `SessionToken` and `LeaseID` are all non-empty, `buildEnv` returns no error,
    leaves the other fields as they were, and sets `EnvMap` to a map of
    exactly seven entries that agrees on every key with the documented one:
    the three secrets, the security-token duplicate of the session token, the
    decimal Unix seconds of `Created`, the decimal `Duration`, and the lease id. -/
theorem AWS_buildEnv_ok (a : AWSCredentials)
    (h1 : a.AccessKeyID ≠ "") (h2 : a.SecretAccessKey ≠ "") (h3 : a.SessionToken ≠ "")
    (h4 : a.LeaseID ≠ "") :
    a.buildEnv.2 = none ∧ a.buildEnv.1 = { a with EnvMap := a.buildEnv.1.EnvMap } ∧
    a.buildEnv.1.EnvMap.len = 7 ∧
    ∀ k, a.buildEnv.1.EnvMap.get? k = GoMap.get? ⟨[
        ("AWS_ACCESS_KEY_ID", a.AccessKeyID),
        ("AWS_SECRET_ACCESS_KEY", a.SecretAccessKey),
        ("AWS_SESSION_TOKEN", a.SessionToken),
        ("AWS_SECURITY_TOKEN", a.SessionToken),
        ("AWS_SESSION_START", FormatInt a.Created.Unix),
        ("AWS_SESSION_DURATION", FormatInt a.Duration),
        ("AWS_SESSION_VAULT_LEASE_ID", a.LeaseID)]⟩ k := by
  rw [AWS_buildEnv_entries a h1 h2 h3 h4]
  refine ⟨rfl, rfl, rfl, ?_⟩
  intro k
  simp only [GoMap.get?, lookupEntry]
  split_ifs <;> first | rfl | (subst_vars; simp_all)

/-- C2 witness: the credential of the repository's test
    (`SOMEACCESSKEYID`, `supersecret`, `token`, created at Unix second 1,
    duration 30, lease `vaultleaseid`) yields the seven expected entries. -/
theorem AWS_buildEnv_ok_witness :
    (AWSCredentials.buildEnv ⟨"SOMEACCESSKEYID", "supersecret", "token", Time.ofUnix 1 0, 30,
      "vaultleaseid", GoMap.make⟩).2 = none ∧
    (AWSCredentials.buildEnv ⟨"SOMEACCESSKEYID", "supersecret", "token", Time.ofUnix 1 0, 30,
      "vaultleaseid", GoMap.make⟩).1.EnvMap.get? "AWS_SESSION_START" = some "1" ∧
    (AWSCredentials.buildEnv ⟨"SOMEACCESSKEYID", "supersecret", "token", Time.ofUnix 1 0, 30,
      "vaultleaseid", GoMap.make⟩).1.EnvMap.get? "AWS_SESSION_DURATION" = some "30" ∧
    (AWSCredentials.buildEnv ⟨"SOMEACCESSKEYID", "supersecret", "token", Time.ofUnix 1 0, 30,
      "vaultleaseid", GoMap.make⟩).1.EnvMap.len = 7 :=
  have h := AWS_buildEnv_ok ⟨"SOMEACCESSKEYID", "supersecret", "token", Time.ofUnix 1 0, 30,
    "vaultleaseid", GoMap.make⟩ (by decide) (by decide) (by decide) (by decide)
  ⟨h.1, (h.2.2.2 "AWS_SESSION_START").trans (by decide),
    (h.2.2.2 "AWS_SESSION_DURATION").trans (by decide), h.2.2.1⟩

/-- C3: for every `AzureCredentials` whose `ClientID`, `ClientSecret` and
    `LeaseID` are all non-empty, `buildEnv` returns no error, leaves the other
    fields as they were, and sets `EnvMap` to a map of exactly five entries
    that agrees on every key with the documented one: the client id, the
    client secret, the decimal Unix seconds of `Created`, the decimal
    `Duration`, and the lease id. -/
theorem Azure_buildEnv_ok (az : AzureCredentials)
    (h1 : az.ClientID ≠ "") (h2 : az.ClientSecret ≠ "") (h3 : az.LeaseID ≠ "") :
    az.buildEnv.2 = none ∧ az.buildEnv.1 = { az with EnvMap := az.buildEnv.1.EnvMap } ∧
    az.buildEnv.1.EnvMap.len = 5 ∧
    ∀ k, az.buildEnv.1.EnvMap.get? k = GoMap.get? ⟨[
        ("ARM_CLIENT_ID", az.ClientID),
        ("ARM_CLIENT_SECRET", az.ClientSecret),
        ("ARM_SESSION_START", FormatInt az.Created.Unix),
        ("ARM_SESSION_DURATION", FormatInt az.Duration),
        ("ARM_SESSION_VAULT_LEASE_ID", az.LeaseID)]⟩ k := by
  rw [Azure_buildEnv_entries az h1 h2 h3]
  refine ⟨rfl, rfl, rfl, ?_⟩
  intro k
  simp only [GoMap.get?, lookupEntry]
  split_ifs <;> first | rfl | (subst_vars; simp_all)

/-- C3 witness: the credential of the repository's test (`id`, `supersecret`,
    created at Unix second 1, duration 30, lease `vaultleaseid`) yields the
    five expected entries. -/
theorem Azure_buildEnv_ok_witness :
    (AzureCredentials.buildEnv ⟨"id", "supersecret", Time.ofUnix 1 0, 30, "vaultleaseid",
      GoMap.make⟩).2 = none ∧
    (AzureCredentials.buildEnv ⟨"id", "supersecret", Time.ofUnix 1 0, 30, "vaultleaseid",
      GoMap.make⟩).1.EnvMap.get? "ARM_SESSION_START" = some "1" ∧
    (AzureCredentials.buildEnv ⟨"id", "supersecret", Time.ofUnix 1 0, 30, "vaultleaseid",
      GoMap.make⟩).1.EnvMap.get? "ARM_SESSION_DURATION" = some "30" ∧
    (AzureCredentials.buildEnv ⟨"id", "supersecret", Time.ofUnix 1 0, 30, "vaultleaseid",
      GoMap.make⟩).1.EnvMap.len = 5 :=
  have h := Azure_buildEnv_ok ⟨"id", "supersecret", Time.ofUnix 1 0, 30, "vaultleaseid",
    GoMap.make⟩ (by decide) (by decide) (by decide)
  ⟨h.1, (h.2.2.2 "ARM_SESSION_START").trans (by decide),
    (h.2.2.2 "ARM_SESSION_DURATION").trans (by decide), h.2.2.1⟩

/-- C4: for each provider `buildEnv` returns an error if and only if at least
    one required field is the empty string (AWS: `AccessKeyID`,
    `SecretAccessKey`, `SessionToken`, `LeaseID`; Azure: `ClientID`,
    `ClientSecret`, `LeaseID`), and replacing `Created` and `Duration` by any
    other values never changes the error returned. -/
theorem buildEnv_error_iff_required_empty (a : AWSCredentials) (az : AzureCredentials) :
    (a.buildEnv.2 ≠ none ↔
      (a.AccessKeyID = "" ∨ a.SecretAccessKey = "" ∨ a.SessionToken = "" ∨ a.LeaseID = "")) ∧
    (az.buildEnv.2 ≠ none ↔ (az.ClientID = "" ∨ az.ClientSecret = "" ∨ az.LeaseID = "")) ∧
    (∀ (t : Time) (d : Int),
      ({ a with Created := t, Duration := d } : AWSCredentials).buildEnv.2 = a.buildEnv.2) ∧
    (∀ (t : Time) (d : Int),
      ({ az with Created := t, Duration := d } : AzureCredentials).buildEnv.2 = az.buildEnv.2) := by
  refine ⟨AWS_buildEnv_error_iff a, Azure_buildEnv_error_iff az, ?_, ?_⟩
  · intro t d
    unfold AWSCredentials.buildEnv
    by_cases h1 : a.AccessKeyID = "" <;> by_cases h2 : a.SecretAccessKey = "" <;>
      by_cases h3 : a.SessionToken = "" <;> by_cases h4 : a.LeaseID = "" <;>
      simp [h1, h2, h3, h4]
  · intro t d
    unfold AzureCredentials.buildEnv
    by_cases h1 : az.ClientID = "" <;> by_cases h2 : az.ClientSecret = "" <;>
      by_cases h3 : az.LeaseID = "" <;> simp [h1, h2, h3]

/-- C5 (the code at the failing input): with only the lease id empty, the AWS
    `buildEnv` fails with a message containing "lease id", while the Azure
    `buildEnv` fails with "cannot set env: vault least id was empty", a message
    that does not contain "lease id". -/
theorem buildEnv_empty_lease_message :
    (AWSCredentials.buildEnv ⟨"SOMEACCESSKEYID", "supersecret", "token", Time.ofUnix 1 0, 30,
      "", GoMap.make⟩).2 = some (.errorf "cannot set env: vault lease id was empty") ∧
    Contains "cannot set env: vault lease id was empty" "lease id" = true ∧
    (AzureCredentials.buildEnv ⟨"id", "supersecret", Time.ofUnix 1 0, 30, "", GoMap.make⟩).2
      = some (.errorf "cannot set env: vault least id was empty") ∧
    Contains "cannot set env: vault least id was empty" "lease id" = false := by
  decide

/-! ### Reading credentials back from the environment (`ReadFromEnv`) -/

theorem not_isDecimalInt64_empty : ¬ IsDecimalInt64 "" := by
  rintro ⟨n, ⟨ds, hne, _, h⟩, _⟩
  obtain ⟨d0, dt, rfl⟩ := List.exists_cons_of_ne_nil hne
  rcases h with ⟨h, _⟩ | ⟨h, _⟩ | ⟨h, _⟩ <;> simp at h

theorem ParseInt_error_iff (s : String) : (∃ e, ParseInt s = .error e) ↔ ¬ IsDecimalInt64 s := by
  constructor
  · rintro ⟨e, he⟩ ⟨n, hn, hr⟩
    rw [ParseInt_of_decimal s n hn hr] at he
    cases he
  · intro h
    cases hp : ParseInt s with
    | error e => exact ⟨e, rfl⟩
    | ok n => exact absurd ⟨n, ParseInt_ok_imp s n hp⟩ h

theorem envHoldsInt64_iff (env : GoMap) (k : String) :
    EnvHoldsInt64 env k ↔ IsDecimalInt64 (Getenv env k) := by
  unfold EnvHoldsInt64 Getenv
  cases h : env.get? k with
  | none => simp [not_isDecimalInt64_empty]
  | some v => simp

theorem envUnsetOrEmpty_iff (env : GoMap) (k : String) :
    EnvUnsetOrEmpty env k ↔ Getenv env k = "" := by
  unfold EnvUnsetOrEmpty Getenv
  cases h : env.get? k with
  | none => simp
  | some v => simp

theorem AWS_buildEnv_match (a : AWSCredentials) :
    (match a.buildEnv with
      | (a, some err) => (a, some err)
      | (a, none) => (a, none)) = a.buildEnv := by
  rcases a.buildEnv with ⟨b, _ | e⟩ <;> rfl

theorem Azure_buildEnv_match (az : AzureCredentials) :
    (match az.buildEnv with
      | (az, some err) => (az, some err)
      | (az, none) => (az, none)) = az.buildEnv := by
  rcases az.buildEnv with ⟨b, _ | e⟩ <;> rfl

theorem AWS_ReadFromEnv_parsed (a : AWSCredentials) (env : GoMap) (n d : Int)
    (hn : ParseInt (Getenv env "AWS_SESSION_START") = .ok n)
    (hd : ParseInt (Getenv env "AWS_SESSION_DURATION") = .ok d) :
    a.ReadFromEnv env = AWSCredentials.buildEnv
      { AccessKeyID := Getenv env "AWS_ACCESS_KEY_ID"
        SecretAccessKey := Getenv env "AWS_SECRET_ACCESS_KEY"
        SessionToken := Getenv env "AWS_SESSION_TOKEN"
        Created := Time.ofUnix n 0
        Duration := d
        LeaseID := Getenv env "AWS_SESSION_VAULT_LEASE_ID"
        EnvMap := a.EnvMap } := by
  unfold AWSCredentials.ReadFromEnv
  rw [hn, hd]
  exact AWS_buildEnv_match _

theorem Azure_ReadFromEnv_parsed (az : AzureCredentials) (env : GoMap) (n d : Int)
    (hn : ParseInt (Getenv env "ARM_SESSION_START") = .ok n)
    (hd : ParseInt (Getenv env "ARM_SESSION_DURATION") = .ok d) :
    az.ReadFromEnv env = AzureCredentials.buildEnv
      { ClientID := Getenv env "ARM_CLIENT_ID"
        ClientSecret := Getenv env "ARM_CLIENT_SECRET"
        Created := Time.ofUnix n 0
        Duration := d
        LeaseID := Getenv env "ARM_SESSION_VAULT_LEASE_ID"
        EnvMap := az.EnvMap } := by
  unfold AzureCredentials.ReadFromEnv
  rw [hn, hd]
  exact Azure_buildEnv_match _

theorem AWS_buildEnv_fixed (a : AWSCredentials) (h : a.buildEnv.2 = none) :
    a.buildEnv.1.buildEnv = (a.buildEnv.1, none) := by
  have hne : ¬ (a.AccessKeyID = "" ∨ a.SecretAccessKey = "" ∨ a.SessionToken = "" ∨
      a.LeaseID = "") := fun hc => (AWS_buildEnv_error_iff a).2 hc h
  simp only [not_or] at hne
  obtain ⟨h1, h2, h3, h4⟩ := hne
  rw [AWS_buildEnv_entries a h1 h2 h3 h4]
  exact AWS_buildEnv_entries _ h1 h2 h3 h4

theorem Azure_buildEnv_fixed (az : AzureCredentials) (h : az.buildEnv.2 = none) :
    az.buildEnv.1.buildEnv = (az.buildEnv.1, none) := by
  have hne : ¬ (az.ClientID = "" ∨ az.ClientSecret = "" ∨ az.LeaseID = "") :=
    fun hc => (Azure_buildEnv_error_iff az).2 hc h
  simp only [not_or] at hne
  obtain ⟨h1, h2, h3⟩ := hne
  rw [Azure_buildEnv_entries az h1 h2 h3]
  exact Azure_buildEnv_entries _ h1 h2 h3

theorem AWS_ReadFromEnv_buildEnv (a fresh : AWSCredentials) (env : GoMap)
    (hok : a.buildEnv.2 = none) (hD : IsInt64 a.Duration) (hC : IsInt64 a.Created.Unix)
    (henv : ∀ k, env.get? k = a.buildEnv.1.EnvMap.get? k) :
    fresh.ReadFromEnv env =
      ({ a.buildEnv.1 with Created := Time.ofUnix a.Created.Unix 0 }, none) := by
  have hne : ¬ (a.AccessKeyID = "" ∨ a.SecretAccessKey = "" ∨ a.SessionToken = "" ∨
      a.LeaseID = "") := fun hc => (AWS_buildEnv_error_iff a).2 hc hok
  simp only [not_or] at hne
  obtain ⟨h1, h2, h3, h4⟩ := hne
  rw [AWS_buildEnv_entries a h1 h2 h3 h4] at henv ⊢
  have e1 : Getenv env "AWS_SESSION_START" = FormatInt a.Created.Unix := by
    rw [Getenv, henv]; simp [GoMap.get?, lookupEntry]
  have e2 : Getenv env "AWS_SESSION_DURATION" = FormatInt a.Duration := by
    rw [Getenv, henv]; simp [GoMap.get?, lookupEntry]
  have e3 : Getenv env "AWS_ACCESS_KEY_ID" = a.AccessKeyID := by
    rw [Getenv, henv]; simp [GoMap.get?, lookupEntry]
  have e4 : Getenv env "AWS_SECRET_ACCESS_KEY" = a.SecretAccessKey := by
    rw [Getenv, henv]; simp [GoMap.get?, lookupEntry]
  have e5 : Getenv env "AWS_SESSION_TOKEN" = a.SessionToken := by
    rw [Getenv, henv]; simp [GoMap.get?, lookupEntry]
  have e6 : Getenv env "AWS_SESSION_VAULT_LEASE_ID" = a.LeaseID := by
    rw [Getenv, henv]; simp [GoMap.get?, lookupEntry]
  rw [AWS_ReadFromEnv_parsed fresh env a.Created.Unix a.Duration
    (by rw [e1]; exact ParseInt_FormatInt _ hC) (by rw [e2]; exact ParseInt_FormatInt _ hD),
    e3, e4, e5, e6]
  exact AWS_buildEnv_entries ⟨a.AccessKeyID, a.SecretAccessKey, a.SessionToken,
    Time.ofUnix a.Created.Unix 0, a.Duration, a.LeaseID, fresh.EnvMap⟩ h1 h2 h3 h4

theorem Azure_ReadFromEnv_buildEnv (az fresh : AzureCredentials) (env : GoMap)
    (hok : az.buildEnv.2 = none) (hD : IsInt64 az.Duration) (hC : IsInt64 az.Created.Unix)
    (henv : ∀ k, env.get? k = az.buildEnv.1.EnvMap.get? k) :
    fresh.ReadFromEnv env =
      ({ az.buildEnv.1 with Created := Time.ofUnix az.Created.Unix 0 }, none) := by
  have hne : ¬ (az.ClientID = "" ∨ az.ClientSecret = "" ∨ az.LeaseID = "") :=
    fun hc => (Azure_buildEnv_error_iff az).2 hc hok
  simp only [not_or] at hne
  obtain ⟨h1, h2, h3⟩ := hne
  rw [Azure_buildEnv_entries az h1 h2 h3] at henv ⊢
  have e1 : Getenv env "ARM_SESSION_START" = FormatInt az.Created.Unix := by
    rw [Getenv, henv]; simp [GoMap.get?, lookupEntry]
  have e2 : Getenv env "ARM_SESSION_DURATION" = FormatInt az.Duration := by
    rw [Getenv, henv]; simp [GoMap.get?, lookupEntry]
  have e3 : Getenv env "ARM_CLIENT_ID" = az.ClientID := by
    rw [Getenv, henv]; simp [GoMap.get?, lookupEntry]
  have e4 : Getenv env "ARM_CLIENT_SECRET" = az.ClientSecret := by
    rw [Getenv, henv]; simp [GoMap.get?, lookupEntry]
  have e6 : Getenv env "ARM_SESSION_VAULT_LEASE_ID" = az.LeaseID := by
    rw [Getenv, henv]; simp [GoMap.get?, lookupEntry]
  rw [Azure_ReadFromEnv_parsed fresh env az.Created.Unix az.Duration
    (by rw [e1]; exact ParseInt_FormatInt _ hC) (by rw [e2]; exact ParseInt_FormatInt _ hD),
    e3, e4, e6]
  exact Azure_buildEnv_entries ⟨az.ClientID, az.ClientSecret, Time.ofUnix az.Created.Unix 0,
    az.Duration, az.LeaseID, fresh.EnvMap⟩ h1 h2 h3

/-- C6: round trip, for each provider. Take a credential on which `buildEnv`
    succeeds, whose `Duration` and Unix creation second are `int64` values, and
    an environment whose variables are exactly the entries of the produced
    `EnvMap`. Then `ReadFromEnv` on any receiver succeeds and yields the
    credential `buildEnv` produced with `Created` cut to whole seconds: the same
    `Duration`, secret fields, `LeaseID` and `EnvMap`, and `Created` equal to
    the Unix second of the original. -/
theorem ReadFromEnv_buildEnv_roundtrip (a fresh : AWSCredentials) (az freshAz : AzureCredentials)
    (env envAz : GoMap)
    (hok : a.buildEnv.2 = none) (hD : IsInt64 a.Duration) (hC : IsInt64 a.Created.Unix)
    (henv : ∀ k, env.get? k = a.buildEnv.1.EnvMap.get? k)
    (hokAz : az.buildEnv.2 = none) (hDAz : IsInt64 az.Duration) (hCAz : IsInt64 az.Created.Unix)
    (henvAz : ∀ k, envAz.get? k = az.buildEnv.1.EnvMap.get? k) :
    ((fresh.ReadFromEnv env).2 = none ∧
      (fresh.ReadFromEnv env).1 = { a.buildEnv.1 with Created := Time.ofUnix a.Created.Unix 0 } ∧
      (fresh.ReadFromEnv env).1.Duration = a.Duration ∧
      (fresh.ReadFromEnv env).1.Created = ⟨a.Created.sec, 0⟩ ∧
      (fresh.ReadFromEnv env).1.AccessKeyID = a.AccessKeyID ∧
      (fresh.ReadFromEnv env).1.SecretAccessKey = a.SecretAccessKey ∧
      (fresh.ReadFromEnv env).1.SessionToken = a.SessionToken ∧
      (fresh.ReadFromEnv env).1.LeaseID = a.LeaseID) ∧
    ((freshAz.ReadFromEnv envAz).2 = none ∧
      (freshAz.ReadFromEnv envAz).1 =
        { az.buildEnv.1 with Created := Time.ofUnix az.Created.Unix 0 } ∧
      (freshAz.ReadFromEnv envAz).1.Duration = az.Duration ∧
      (freshAz.ReadFromEnv envAz).1.Created = ⟨az.Created.sec, 0⟩ ∧
      (freshAz.ReadFromEnv envAz).1.ClientID = az.ClientID ∧
      (freshAz.ReadFromEnv envAz).1.ClientSecret = az.ClientSecret ∧
      (freshAz.ReadFromEnv envAz).1.LeaseID = az.LeaseID) := by
  have hne : ¬ (a.AccessKeyID = "" ∨ a.SecretAccessKey = "" ∨ a.SessionToken = "" ∨
      a.LeaseID = "") := fun hc => (AWS_buildEnv_error_iff a).2 hc hok
  have hneAz : ¬ (az.ClientID = "" ∨ az.ClientSecret = "" ∨ az.LeaseID = "") :=
    fun hc => (Azure_buildEnv_error_iff az).2 hc hokAz
  simp only [not_or] at hne hneAz
  rw [AWS_ReadFromEnv_buildEnv a fresh env hok hD hC henv,
    Azure_ReadFromEnv_buildEnv az freshAz envAz hokAz hDAz hCAz henvAz,
    AWS_buildEnv_entries a hne.1 hne.2.1 hne.2.2.1 hne.2.2.2,
    Azure_buildEnv_entries az hneAz.1 hneAz.2.1 hneAz.2.2]
  exact ⟨⟨rfl, rfl, rfl, rfl, rfl, rfl, rfl, rfl⟩, ⟨rfl, rfl, rfl, rfl, rfl, rfl, rfl⟩⟩

/-- C6 witness: the credentials of the repository's tests, created half a
    second after Unix second 1, are read back from their own environment maps
    with duration 30 and creation time Unix second 1. -/
theorem ReadFromEnv_buildEnv_roundtrip_witness :
    (AWSCredentials.zero.ReadFromEnv (AWSCredentials.buildEnv ⟨"SOMEACCESSKEYID", "supersecret",
      "token", ⟨1, 500000000⟩, 30, "vaultleaseid", GoMap.make⟩).1.EnvMap).1.Duration = 30 ∧
    (AWSCredentials.zero.ReadFromEnv (AWSCredentials.buildEnv ⟨"SOMEACCESSKEYID", "supersecret",
      "token", ⟨1, 500000000⟩, 30, "vaultleaseid", GoMap.make⟩).1.EnvMap).1.Created = ⟨1, 0⟩ ∧
    (AzureCredentials.zero.ReadFromEnv (AzureCredentials.buildEnv ⟨"id", "supersecret",
      ⟨1, 500000000⟩, 30, "vaultleaseid", GoMap.make⟩).1.EnvMap).1.Duration = 30 ∧
    (AzureCredentials.zero.ReadFromEnv (AzureCredentials.buildEnv ⟨"id", "supersecret",
      ⟨1, 500000000⟩, 30, "vaultleaseid", GoMap.make⟩).1.EnvMap).1.Created = ⟨1, 0⟩ :=
  have h := ReadFromEnv_buildEnv_roundtrip
    ⟨"SOMEACCESSKEYID", "supersecret", "token", ⟨1, 500000000⟩, 30, "vaultleaseid", GoMap.make⟩
    AWSCredentials.zero
    ⟨"id", "supersecret", ⟨1, 500000000⟩, 30, "vaultleaseid", GoMap.make⟩
    AzureCredentials.zero _ _
    (by decide) (by decide) (by decide) (fun _ => rfl)
    (by decide) (by decide) (by decide) (fun _ => rfl)
  ⟨h.1.2.2.1, h.1.2.2.2.1, h.2.2.2.1, h.2.2.2.2.1⟩

theorem AWS_ReadFromEnv_fails_iff (a : AWSCredentials) (env : GoMap) :
    (a.ReadFromEnv env).2 ≠ none ↔
      (¬ EnvHoldsInt64 env "AWS_SESSION_START" ∨ ¬ EnvHoldsInt64 env "AWS_SESSION_DURATION" ∨
        EnvUnsetOrEmpty env "AWS_ACCESS_KEY_ID" ∨ EnvUnsetOrEmpty env "AWS_SECRET_ACCESS_KEY" ∨
        EnvUnsetOrEmpty env "AWS_SESSION_TOKEN" ∨
        EnvUnsetOrEmpty env "AWS_SESSION_VAULT_LEASE_ID") := by
  simp only [envHoldsInt64_iff, envUnsetOrEmpty_iff]
  cases hn : ParseInt (Getenv env "AWS_SESSION_START") with
  | error e =>
    have h1 := (ParseInt_error_iff _).1 ⟨e, hn⟩
    simp [AWSCredentials.ReadFromEnv, hn, h1]
  | ok n =>
    have h1 : IsDecimalInt64 (Getenv env "AWS_SESSION_START") := ⟨n, ParseInt_ok_imp _ _ hn⟩
    cases hd : ParseInt (Getenv env "AWS_SESSION_DURATION") with
    | error e =>
      have h2 := (ParseInt_error_iff _).1 ⟨e, hd⟩
      simp [AWSCredentials.ReadFromEnv, hn, hd, h2]
    | ok d =>
      have h2 : IsDecimalInt64 (Getenv env "AWS_SESSION_DURATION") := ⟨d, ParseInt_ok_imp _ _ hd⟩
      rw [AWS_ReadFromEnv_parsed a env n d hn hd, AWS_buildEnv_error_iff]
      simp [h1, h2]

theorem AWS_ReadFromEnv_ok (a : AWSCredentials) (env : GoMap)
    (h : (a.ReadFromEnv env).2 = none) :
    ∃ n d : Int, IsDecimalOf (Getenv env "AWS_SESSION_START") n ∧
      IsDecimalOf (Getenv env "AWS_SESSION_DURATION") d ∧
      (a.ReadFromEnv env).1.AccessKeyID = Getenv env "AWS_ACCESS_KEY_ID" ∧
      (a.ReadFromEnv env).1.SecretAccessKey = Getenv env "AWS_SECRET_ACCESS_KEY" ∧
      (a.ReadFromEnv env).1.SessionToken = Getenv env "AWS_SESSION_TOKEN" ∧
      (a.ReadFromEnv env).1.LeaseID = Getenv env "AWS_SESSION_VAULT_LEASE_ID" ∧
      (a.ReadFromEnv env).1.Created = Time.ofUnix n 0 ∧
      (a.ReadFromEnv env).1.Duration = d ∧
      (a.ReadFromEnv env).1.buildEnv = ((a.ReadFromEnv env).1, none) ∧
      IsInt64 n ∧ IsInt64 d ∧
      (a.ReadFromEnv env).1.EnvMap.len = 7 ∧
      ∀ k, (a.ReadFromEnv env).1.EnvMap.get? k = GoMap.get? ⟨[
        ("AWS_ACCESS_KEY_ID", Getenv env "AWS_ACCESS_KEY_ID"),
        ("AWS_SECRET_ACCESS_KEY", Getenv env "AWS_SECRET_ACCESS_KEY"),
        ("AWS_SESSION_TOKEN", Getenv env "AWS_SESSION_TOKEN"),
        ("AWS_SECURITY_TOKEN", Getenv env "AWS_SESSION_TOKEN"),
        ("AWS_SESSION_START", FormatInt n),
        ("AWS_SESSION_DURATION", FormatInt d),
        ("AWS_SESSION_VAULT_LEASE_ID", Getenv env "AWS_SESSION_VAULT_LEASE_ID")]⟩ k := by
  cases hn : ParseInt (Getenv env "AWS_SESSION_START") with
  | error e => simp [AWSCredentials.ReadFromEnv, hn] at h
  | ok n =>
    cases hd : ParseInt (Getenv env "AWS_SESSION_DURATION") with
    | error e => simp [AWSCredentials.ReadFromEnv, hn, hd] at h
    | ok d =>
      rw [AWS_ReadFromEnv_parsed a env n d hn hd] at h ⊢
      have hne := fun hc => (AWS_buildEnv_error_iff _).2 hc h
      simp only [imp_false, not_or] at hne
      obtain ⟨h1, h2, h3, h4⟩ := hne
      refine ⟨n, d, (ParseInt_ok_imp _ _ hn).1, (ParseInt_ok_imp _ _ hd).1, ?_⟩
      refine ⟨?_, ?_, ?_, ?_, ?_, ?_, AWS_buildEnv_fixed _ h, (ParseInt_ok_imp _ _ hn).2,
        (ParseInt_ok_imp _ _ hd).2, ?_, ?_⟩ <;>
        rw [AWS_buildEnv_entries _ h1 h2 h3 h4]
      · rfl
      · intro k
        simp only [GoMap.get?, lookupEntry, Time.ofUnix, Time.Unix]
        split_ifs <;> first | rfl | (subst_vars; simp_all)

theorem Azure_ReadFromEnv_fails_iff (az : AzureCredentials) (env : GoMap) :
    (az.ReadFromEnv env).2 ≠ none ↔
      (¬ EnvHoldsInt64 env "ARM_SESSION_START" ∨ ¬ EnvHoldsInt64 env "ARM_SESSION_DURATION" ∨
        EnvUnsetOrEmpty env "ARM_CLIENT_ID" ∨ EnvUnsetOrEmpty env "ARM_CLIENT_SECRET" ∨
        EnvUnsetOrEmpty env "ARM_SESSION_VAULT_LEASE_ID") := by
  simp only [envHoldsInt64_iff, envUnsetOrEmpty_iff]
  cases hn : ParseInt (Getenv env "ARM_SESSION_START") with
  | error e =>
    have h1 := (ParseInt_error_iff _).1 ⟨e, hn⟩
    simp [AzureCredentials.ReadFromEnv, hn, h1]
  | ok n =>
    have h1 : IsDecimalInt64 (Getenv env "ARM_SESSION_START") := ⟨n, ParseInt_ok_imp _ _ hn⟩
    cases hd : ParseInt (Getenv env "ARM_SESSION_DURATION") with
    | error e =>
      have h2 := (ParseInt_error_iff _).1 ⟨e, hd⟩
      simp [AzureCredentials.ReadFromEnv, hn, hd, h2]
    | ok d =>
      have h2 : IsDecimalInt64 (Getenv env "ARM_SESSION_DURATION") := ⟨d, ParseInt_ok_imp _ _ hd⟩
      rw [Azure_ReadFromEnv_parsed az env n d hn hd, Azure_buildEnv_error_iff]
      simp [h1, h2]

theorem Azure_ReadFromEnv_ok (az : AzureCredentials) (env : GoMap)
    (h : (az.ReadFromEnv env).2 = none) :
    ∃ n d : Int, IsDecimalOf (Getenv env "ARM_SESSION_START") n ∧
      IsDecimalOf (Getenv env "ARM_SESSION_DURATION") d ∧
      (az.ReadFromEnv env).1.ClientID = Getenv env "ARM_CLIENT_ID" ∧
      (az.ReadFromEnv env).1.ClientSecret = Getenv env "ARM_CLIENT_SECRET" ∧
      (az.ReadFromEnv env).1.LeaseID = Getenv env "ARM_SESSION_VAULT_LEASE_ID" ∧
      (az.ReadFromEnv env).1.Created = Time.ofUnix n 0 ∧
      (az.ReadFromEnv env).1.Duration = d ∧
      (az.ReadFromEnv env).1.buildEnv = ((az.ReadFromEnv env).1, none) ∧
      IsInt64 n ∧ IsInt64 d ∧
      (az.ReadFromEnv env).1.EnvMap.len = 5 ∧
      ∀ k, (az.ReadFromEnv env).1.EnvMap.get? k = GoMap.get? ⟨[
        ("ARM_CLIENT_ID", Getenv env "ARM_CLIENT_ID"),
        ("ARM_CLIENT_SECRET", Getenv env "ARM_CLIENT_SECRET"),
        ("ARM_SESSION_START", FormatInt n),
        ("ARM_SESSION_DURATION", FormatInt d),
        ("ARM_SESSION_VAULT_LEASE_ID", Getenv env "ARM_SESSION_VAULT_LEASE_ID")]⟩ k := by
  cases hn : ParseInt (Getenv env "ARM_SESSION_START") with
  | error e => simp [AzureCredentials.ReadFromEnv, hn] at h
  | ok n =>
    cases hd : ParseInt (Getenv env "ARM_SESSION_DURATION") with
    | error e => simp [AzureCredentials.ReadFromEnv, hn, hd] at h
    | ok d =>
      rw [Azure_ReadFromEnv_parsed az env n d hn hd] at h ⊢
      have hne := fun hc => (Azure_buildEnv_error_iff _).2 hc h
      simp only [imp_false, not_or] at hne
      obtain ⟨h1, h2, h3⟩ := hne
      refine ⟨n, d, (ParseInt_ok_imp _ _ hn).1, (ParseInt_ok_imp _ _ hd).1, ?_⟩
      refine ⟨?_, ?_, ?_, ?_, ?_, Azure_buildEnv_fixed _ h, (ParseInt_ok_imp _ _ hn).2,
        (ParseInt_ok_imp _ _ hd).2, ?_, ?_⟩ <;>
        rw [Azure_buildEnv_entries _ h1 h2 h3]
      · rfl
      · intro k
        simp only [GoMap.get?, lookupEntry, Time.ofUnix, Time.Unix]
        split_ifs <;> first | rfl | (subst_vars; simp_all)

/-- C7: for each provider `ReadFromEnv` fails exactly when the session-start
    variable or the session-duration variable is unset or is not a base-10
    signed 64-bit integer, or a required secret or lease-id variable is unset
    or empty; when it does not fail, the start and duration variables are
    numerals of `int64` values `n` and `d`, every field holds the value of its
    variable, `Created` is Unix second `n`, `Duration` is `d`, and `EnvMap` is
    recomputed: whatever it held before, it now has exactly the documented
    entries (seven for AWS, five for Azure), built from the values read, with
    the start and duration in their decimal form, and `buildEnv` on the
    result reproduces it. -/
theorem ReadFromEnv_fails_exactly_when (a : AWSCredentials) (az : AzureCredentials)
    (env : GoMap) :
    ((a.ReadFromEnv env).2 ≠ none ↔
      (¬ EnvHoldsInt64 env "AWS_SESSION_START" ∨ ¬ EnvHoldsInt64 env "AWS_SESSION_DURATION" ∨
        EnvUnsetOrEmpty env "AWS_ACCESS_KEY_ID" ∨ EnvUnsetOrEmpty env "AWS_SECRET_ACCESS_KEY" ∨
        EnvUnsetOrEmpty env "AWS_SESSION_TOKEN" ∨
        EnvUnsetOrEmpty env "AWS_SESSION_VAULT_LEASE_ID")) ∧
    ((a.ReadFromEnv env).2 = none →
      ∃ n d : Int, IsDecimalOf (Getenv env "AWS_SESSION_START") n ∧
        IsDecimalOf (Getenv env "AWS_SESSION_DURATION") d ∧
        (a.ReadFromEnv env).1.AccessKeyID = Getenv env "AWS_ACCESS_KEY_ID" ∧
        (a.ReadFromEnv env).1.SecretAccessKey = Getenv env "AWS_SECRET_ACCESS_KEY" ∧
        (a.ReadFromEnv env).1.SessionToken = Getenv env "AWS_SESSION_TOKEN" ∧
        (a.ReadFromEnv env).1.LeaseID = Getenv env "AWS_SESSION_VAULT_LEASE_ID" ∧
        (a.ReadFromEnv env).1.Created = Time.ofUnix n 0 ∧
        (a.ReadFromEnv env).1.Duration = d ∧
        (a.ReadFromEnv env).1.buildEnv = ((a.ReadFromEnv env).1, none) ∧
        IsInt64 n ∧ IsInt64 d ∧
        (a.ReadFromEnv env).1.EnvMap.len = 7 ∧
        ∀ k, (a.ReadFromEnv env).1.EnvMap.get? k = GoMap.get? ⟨[
          ("AWS_ACCESS_KEY_ID", Getenv env "AWS_ACCESS_KEY_ID"),
          ("AWS_SECRET_ACCESS_KEY", Getenv env "AWS_SECRET_ACCESS_KEY"),
          ("AWS_SESSION_TOKEN", Getenv env "AWS_SESSION_TOKEN"),
          ("AWS_SECURITY_TOKEN", Getenv env "AWS_SESSION_TOKEN"),
          ("AWS_SESSION_START", FormatInt n),
          ("AWS_SESSION_DURATION", FormatInt d),
          ("AWS_SESSION_VAULT_LEASE_ID", Getenv env "AWS_SESSION_VAULT_LEASE_ID")]⟩ k) ∧
    ((az.ReadFromEnv env).2 ≠ none ↔
      (¬ EnvHoldsInt64 env "ARM_SESSION_START" ∨ ¬ EnvHoldsInt64 env "ARM_SESSION_DURATION" ∨
        EnvUnsetOrEmpty env "ARM_CLIENT_ID" ∨ EnvUnsetOrEmpty env "ARM_CLIENT_SECRET" ∨
        EnvUnsetOrEmpty env "ARM_SESSION_VAULT_LEASE_ID")) ∧
    ((az.ReadFromEnv env).2 = none →
      ∃ n d : Int, IsDecimalOf (Getenv env "ARM_SESSION_START") n ∧
        IsDecimalOf (Getenv env "ARM_SESSION_DURATION") d ∧
        (az.ReadFromEnv env).1.ClientID = Getenv env "ARM_CLIENT_ID" ∧
        (az.ReadFromEnv env).1.ClientSecret = Getenv env "ARM_CLIENT_SECRET" ∧
        (az.ReadFromEnv env).1.LeaseID = Getenv env "ARM_SESSION_VAULT_LEASE_ID" ∧
        (az.ReadFromEnv env).1.Created = Time.ofUnix n 0 ∧
        (az.ReadFromEnv env).1.Duration = d ∧
        (az.ReadFromEnv env).1.buildEnv = ((az.ReadFromEnv env).1, none) ∧
        IsInt64 n ∧ IsInt64 d ∧
        (az.ReadFromEnv env).1.EnvMap.len = 5 ∧
        ∀ k, (az.ReadFromEnv env).1.EnvMap.get? k = GoMap.get? ⟨[
          ("ARM_CLIENT_ID", Getenv env "ARM_CLIENT_ID"),
          ("ARM_CLIENT_SECRET", Getenv env "ARM_CLIENT_SECRET"),
          ("ARM_SESSION_START", FormatInt n),
          ("ARM_SESSION_DURATION", FormatInt d),
          ("ARM_SESSION_VAULT_LEASE_ID", Getenv env "ARM_SESSION_VAULT_LEASE_ID")]⟩ k) :=
  ⟨AWS_ReadFromEnv_fails_iff a env, AWS_ReadFromEnv_ok a env,
    Azure_ReadFromEnv_fails_iff az env, Azure_ReadFromEnv_ok az env⟩

/-- C7 witness: in an environment holding the AWS and Azure variables of
    the repository's tests, no AWS failure condition holds; receivers that
    held other values and a stale map entry end with the secrets of the
    environment and a map of seven (AWS) or five (Azure) entries holding
    them and no stale entry; in the empty environment both reads fail, the
    session start being unset. -/
theorem ReadFromEnv_fails_exactly_when_witness :
    ¬ (¬ EnvHoldsInt64
          ⟨[("AWS_SESSION_START", "1"), ("AWS_SESSION_DURATION", "30"),
        ("AWS_SESSION_VAULT_LEASE_ID", "vaultleaseid"), ("AWS_SESSION_TOKEN", "token"),
        ("AWS_SECRET_ACCESS_KEY", "supersecret"), ("AWS_ACCESS_KEY_ID", "SOMEACCESSKEYID"),
        ("ARM_SESSION_START", "1"), ("ARM_SESSION_DURATION", "30"),
        ("ARM_SESSION_VAULT_LEASE_ID", "vaultleaseid"), ("ARM_CLIENT_SECRET", "supersecret"),
        ("ARM_CLIENT_ID", "id")]⟩
          "AWS_SESSION_START" ∨
        ¬ EnvHoldsInt64
          ⟨[("AWS_SESSION_START", "1"), ("AWS_SESSION_DURATION", "30"),
        ("AWS_SESSION_VAULT_LEASE_ID", "vaultleaseid"), ("AWS_SESSION_TOKEN", "token"),
        ("AWS_SECRET_ACCESS_KEY", "supersecret"), ("AWS_ACCESS_KEY_ID", "SOMEACCESSKEYID"),
        ("ARM_SESSION_START", "1"), ("ARM_SESSION_DURATION", "30"),
        ("ARM_SESSION_VAULT_LEASE_ID", "vaultleaseid"), ("ARM_CLIENT_SECRET", "supersecret"),
        ("ARM_CLIENT_ID", "id")]⟩
          "AWS_SESSION_DURATION" ∨
        EnvUnsetOrEmpty
          ⟨[("AWS_SESSION_START", "1"), ("AWS_SESSION_DURATION", "30"),
        ("AWS_SESSION_VAULT_LEASE_ID", "vaultleaseid"), ("AWS_SESSION_TOKEN", "token"),
        ("AWS_SECRET_ACCESS_KEY", "supersecret"), ("AWS_ACCESS_KEY_ID", "SOMEACCESSKEYID"),
        ("ARM_SESSION_START", "1"), ("ARM_SESSION_DURATION", "30"),
        ("ARM_SESSION_VAULT_LEASE_ID", "vaultleaseid"), ("ARM_CLIENT_SECRET", "supersecret"),
        ("ARM_CLIENT_ID", "id")]⟩
          "AWS_ACCESS_KEY_ID" ∨
        EnvUnsetOrEmpty
          ⟨[("AWS_SESSION_START", "1"), ("AWS_SESSION_DURATION", "30"),
        ("AWS_SESSION_VAULT_LEASE_ID", "vaultleaseid"), ("AWS_SESSION_TOKEN", "token"),
        ("AWS_SECRET_ACCESS_KEY", "supersecret"), ("AWS_ACCESS_KEY_ID", "SOMEACCESSKEYID"),
        ("ARM_SESSION_START", "1"), ("ARM_SESSION_DURATION", "30"),
        ("ARM_SESSION_VAULT_LEASE_ID", "vaultleaseid"), ("ARM_CLIENT_SECRET", "supersecret"),
        ("ARM_CLIENT_ID", "id")]⟩
          "AWS_SECRET_ACCESS_KEY" ∨
        EnvUnsetOrEmpty
          ⟨[("AWS_SESSION_START", "1"), ("AWS_SESSION_DURATION", "30"),
        ("AWS_SESSION_VAULT_LEASE_ID", "vaultleaseid"), ("AWS_SESSION_TOKEN", "token"),
        ("AWS_SECRET_ACCESS_KEY", "supersecret"), ("AWS_ACCESS_KEY_ID", "SOMEACCESSKEYID"),
        ("ARM_SESSION_START", "1"), ("ARM_SESSION_DURATION", "30"),
        ("ARM_SESSION_VAULT_LEASE_ID", "vaultleaseid"), ("ARM_CLIENT_SECRET", "supersecret"),
        ("ARM_CLIENT_ID", "id")]⟩
          "AWS_SESSION_TOKEN" ∨
        EnvUnsetOrEmpty
          ⟨[("AWS_SESSION_START", "1"), ("AWS_SESSION_DURATION", "30"),
        ("AWS_SESSION_VAULT_LEASE_ID", "vaultleaseid"), ("AWS_SESSION_TOKEN", "token"),
        ("AWS_SECRET_ACCESS_KEY", "supersecret"), ("AWS_ACCESS_KEY_ID", "SOMEACCESSKEYID"),
        ("ARM_SESSION_START", "1"), ("ARM_SESSION_DURATION", "30"),
        ("ARM_SESSION_VAULT_LEASE_ID", "vaultleaseid"), ("ARM_CLIENT_SECRET", "supersecret"),
        ("ARM_CLIENT_ID", "id")]⟩
          "AWS_SESSION_VAULT_LEASE_ID") ∧
    (AWSCredentials.ReadFromEnv ⟨"old", "old", "old", Time.zero, 0, "old", ⟨[("STALE", "x")]⟩⟩
      ⟨[("AWS_SESSION_START", "1"), ("AWS_SESSION_DURATION", "30"),
        ("AWS_SESSION_VAULT_LEASE_ID", "vaultleaseid"), ("AWS_SESSION_TOKEN", "token"),
        ("AWS_SECRET_ACCESS_KEY", "supersecret"), ("AWS_ACCESS_KEY_ID", "SOMEACCESSKEYID"),
        ("ARM_SESSION_START", "1"), ("ARM_SESSION_DURATION", "30"),
        ("ARM_SESSION_VAULT_LEASE_ID", "vaultleaseid"), ("ARM_CLIENT_SECRET", "supersecret"),
        ("ARM_CLIENT_ID", "id")]⟩).1.AccessKeyID = "SOMEACCESSKEYID" ∧
    (AWSCredentials.ReadFromEnv ⟨"old", "old", "old", Time.zero, 0, "old", ⟨[("STALE", "x")]⟩⟩
      ⟨[("AWS_SESSION_START", "1"), ("AWS_SESSION_DURATION", "30"),
        ("AWS_SESSION_VAULT_LEASE_ID", "vaultleaseid"), ("AWS_SESSION_TOKEN", "token"),
        ("AWS_SECRET_ACCESS_KEY", "supersecret"), ("AWS_ACCESS_KEY_ID", "SOMEACCESSKEYID"),
        ("ARM_SESSION_START", "1"), ("ARM_SESSION_DURATION", "30"),
        ("ARM_SESSION_VAULT_LEASE_ID", "vaultleaseid"), ("ARM_CLIENT_SECRET", "supersecret"),
        ("ARM_CLIENT_ID", "id")]⟩).1.EnvMap.len = 7 ∧
    (AWSCredentials.ReadFromEnv ⟨"old", "old", "old", Time.zero, 0, "old", ⟨[("STALE", "x")]⟩⟩
      ⟨[("AWS_SESSION_START", "1"), ("AWS_SESSION_DURATION", "30"),
        ("AWS_SESSION_VAULT_LEASE_ID", "vaultleaseid"), ("AWS_SESSION_TOKEN", "token"),
        ("AWS_SECRET_ACCESS_KEY", "supersecret"), ("AWS_ACCESS_KEY_ID", "SOMEACCESSKEYID"),
        ("ARM_SESSION_START", "1"), ("ARM_SESSION_DURATION", "30"),
        ("ARM_SESSION_VAULT_LEASE_ID", "vaultleaseid"), ("ARM_CLIENT_SECRET", "supersecret"),
        ("ARM_CLIENT_ID", "id")]⟩).1.EnvMap.get? "AWS_ACCESS_KEY_ID" = some "SOMEACCESSKEYID" ∧
    (AWSCredentials.ReadFromEnv ⟨"old", "old", "old", Time.zero, 0, "old", ⟨[("STALE", "x")]⟩⟩
      ⟨[("AWS_SESSION_START", "1"), ("AWS_SESSION_DURATION", "30"),
        ("AWS_SESSION_VAULT_LEASE_ID", "vaultleaseid"), ("AWS_SESSION_TOKEN", "token"),
        ("AWS_SECRET_ACCESS_KEY", "supersecret"), ("AWS_ACCESS_KEY_ID", "SOMEACCESSKEYID"),
        ("ARM_SESSION_START", "1"), ("ARM_SESSION_DURATION", "30"),
        ("ARM_SESSION_VAULT_LEASE_ID", "vaultleaseid"), ("ARM_CLIENT_SECRET", "supersecret"),
        ("ARM_CLIENT_ID", "id")]⟩).1.EnvMap.get? "AWS_SECURITY_TOKEN" = some "token" ∧
    (AWSCredentials.ReadFromEnv ⟨"old", "old", "old", Time.zero, 0, "old", ⟨[("STALE", "x")]⟩⟩
      ⟨[("AWS_SESSION_START", "1"), ("AWS_SESSION_DURATION", "30"),
        ("AWS_SESSION_VAULT_LEASE_ID", "vaultleaseid"), ("AWS_SESSION_TOKEN", "token"),
        ("AWS_SECRET_ACCESS_KEY", "supersecret"), ("AWS_ACCESS_KEY_ID", "SOMEACCESSKEYID"),
        ("ARM_SESSION_START", "1"), ("ARM_SESSION_DURATION", "30"),
        ("ARM_SESSION_VAULT_LEASE_ID", "vaultleaseid"), ("ARM_CLIENT_SECRET", "supersecret"),
        ("ARM_CLIENT_ID", "id")]⟩).1.EnvMap.get? "STALE" = none ∧
    (AzureCredentials.ReadFromEnv ⟨"old", "old", Time.zero, 0, "old", ⟨[("STALE", "x")]⟩⟩
      ⟨[("AWS_SESSION_START", "1"), ("AWS_SESSION_DURATION", "30"),
        ("AWS_SESSION_VAULT_LEASE_ID", "vaultleaseid"), ("AWS_SESSION_TOKEN", "token"),
        ("AWS_SECRET_ACCESS_KEY", "supersecret"), ("AWS_ACCESS_KEY_ID", "SOMEACCESSKEYID"),
        ("ARM_SESSION_START", "1"), ("ARM_SESSION_DURATION", "30"),
        ("ARM_SESSION_VAULT_LEASE_ID", "vaultleaseid"), ("ARM_CLIENT_SECRET", "supersecret"),
        ("ARM_CLIENT_ID", "id")]⟩).1.ClientID = "id" ∧
    (AzureCredentials.ReadFromEnv ⟨"old", "old", Time.zero, 0, "old", ⟨[("STALE", "x")]⟩⟩
      ⟨[("AWS_SESSION_START", "1"), ("AWS_SESSION_DURATION", "30"),
        ("AWS_SESSION_VAULT_LEASE_ID", "vaultleaseid"), ("AWS_SESSION_TOKEN", "token"),
        ("AWS_SECRET_ACCESS_KEY", "supersecret"), ("AWS_ACCESS_KEY_ID", "SOMEACCESSKEYID"),
        ("ARM_SESSION_START", "1"), ("ARM_SESSION_DURATION", "30"),
        ("ARM_SESSION_VAULT_LEASE_ID", "vaultleaseid"), ("ARM_CLIENT_SECRET", "supersecret"),
        ("ARM_CLIENT_ID", "id")]⟩).1.EnvMap.len = 5 ∧
    (AzureCredentials.ReadFromEnv ⟨"old", "old", Time.zero, 0, "old", ⟨[("STALE", "x")]⟩⟩
      ⟨[("AWS_SESSION_START", "1"), ("AWS_SESSION_DURATION", "30"),
        ("AWS_SESSION_VAULT_LEASE_ID", "vaultleaseid"), ("AWS_SESSION_TOKEN", "token"),
        ("AWS_SECRET_ACCESS_KEY", "supersecret"), ("AWS_ACCESS_KEY_ID", "SOMEACCESSKEYID"),
        ("ARM_SESSION_START", "1"), ("ARM_SESSION_DURATION", "30"),
        ("ARM_SESSION_VAULT_LEASE_ID", "vaultleaseid"), ("ARM_CLIENT_SECRET", "supersecret"),
        ("ARM_CLIENT_ID", "id")]⟩).1.EnvMap.get? "ARM_CLIENT_SECRET" = some "supersecret" ∧
    (AzureCredentials.ReadFromEnv ⟨"old", "old", Time.zero, 0, "old", ⟨[("STALE", "x")]⟩⟩
      ⟨[("AWS_SESSION_START", "1"), ("AWS_SESSION_DURATION", "30"),
        ("AWS_SESSION_VAULT_LEASE_ID", "vaultleaseid"), ("AWS_SESSION_TOKEN", "token"),
        ("AWS_SECRET_ACCESS_KEY", "supersecret"), ("AWS_ACCESS_KEY_ID", "SOMEACCESSKEYID"),
        ("ARM_SESSION_START", "1"), ("ARM_SESSION_DURATION", "30"),
        ("ARM_SESSION_VAULT_LEASE_ID", "vaultleaseid"), ("ARM_CLIENT_SECRET", "supersecret"),
        ("ARM_CLIENT_ID", "id")]⟩).1.EnvMap.get? "STALE" = none ∧
    (AWSCredentials.zero.ReadFromEnv GoMap.make).2 ≠ none ∧
    (AzureCredentials.zero.ReadFromEnv GoMap.make).2 ≠ none := by
  have h := ReadFromEnv_fails_exactly_when
    ⟨"old", "old", "old", Time.zero, 0, "old", ⟨[("STALE", "x")]⟩⟩
    ⟨"old", "old", Time.zero, 0, "old", ⟨[("STALE", "x")]⟩⟩
    ⟨[("AWS_SESSION_START", "1"), ("AWS_SESSION_DURATION", "30"),
        ("AWS_SESSION_VAULT_LEASE_ID", "vaultleaseid"), ("AWS_SESSION_TOKEN", "token"),
        ("AWS_SECRET_ACCESS_KEY", "supersecret"), ("AWS_ACCESS_KEY_ID", "SOMEACCESSKEYID"),
        ("ARM_SESSION_START", "1"), ("ARM_SESSION_DURATION", "30"),
        ("ARM_SESSION_VAULT_LEASE_ID", "vaultleaseid"), ("ARM_CLIENT_SECRET", "supersecret"),
        ("ARM_CLIENT_ID", "id")]⟩
  have h0 := ReadFromEnv_fails_exactly_when AWSCredentials.zero AzureCredentials.zero
    GoMap.make
  obtain ⟨n, d, _, _, hK, _, _, _, _, _, _, _, _, hlen, hget⟩ := h.2.1 (by decide)
  obtain ⟨nz, dz, _, _, hI, _, _, _, _, _, _, _, hlenz, hgetz⟩ := h.2.2.2 (by decide)
  refine ⟨fun hc => h.1.2 hc (by decide), hK.trans (by decide), hlen,
    (hget "AWS_ACCESS_KEY_ID").trans (by simp [GoMap.get?, lookupEntry, Getenv]),
    (hget "AWS_SECURITY_TOKEN").trans (by simp [GoMap.get?, lookupEntry, Getenv]),
    (hget "STALE").trans (by simp [GoMap.get?, lookupEntry]),
    hI.trans (by decide), hlenz,
    (hgetz "ARM_CLIENT_SECRET").trans (by simp [GoMap.get?, lookupEntry, Getenv]),
    (hgetz "STALE").trans (by simp [GoMap.get?, lookupEntry]), ?_, ?_⟩
  · exact h0.1.2 (Or.inl (fun hv => by
      obtain ⟨v, hv, _⟩ := hv
      simp [GoMap.get?, GoMap.make, lookupEntry] at hv))
  · exact h0.2.2.1.2 (Or.inl (fun hv => by
      obtain ⟨v, hv, _⟩ := hv
      simp [GoMap.get?, GoMap.make, lookupEntry] at hv))

/-! ### Cache-then-issue (`NewAWSCredentials`, `NewAzureCredentials`) -/

theorem AWSLogin_match (r : Except GoError AWSCredentials × Sys) :
    (match r with
      | (.error err, s) => (.error err, s)
      | (.ok newCreds, s) => (.ok newCreds, s)) = r := by
  rcases r with ⟨_ | _, s⟩ <;> rfl

theorem AzureLogin_match (r : Except GoError AzureCredentials × Sys) :
    (match r with
      | (.error err, s) => (.error err, s)
      | (.ok newCreds, s) => (.ok newCreds, s)) = r := by
  rcases r with ⟨_ | _, s⟩ <;> rfl

/-- C8: `NewAWSCredentials` and `NewAzureCredentials` follow the
    cache-then-issue algorithm. If `ReadFromEnv` on a zero credential succeeds
    and the credential read is not expired under `Config.BufferSeconds` at the
    clock reading taken, the result is exactly that credential and no command
    is run. If it succeeds and the credential is expired, the result (value
    or error) is exactly that of the login run after that clock reading. If
    `ReadFromEnv` fails, the result is exactly that of the login. -/
theorem NewCredentials_cache_then_issue (c : Config)
    (unmarshalAWS : String → Except String vaultAWSCredentials)
    (unmarshalAzure : String → Except String vaultAzureCredentials) (s : Sys) :
    ((AWSCredentials.zero.ReadFromEnv s.env).2 = none →
      (AWSCredentials.zero.ReadFromEnv s.env).1.Expired c.BufferSeconds s.Now.1 = false →
      c.NewAWSCredentials unmarshalAWS s = (.ok (AWSCredentials.zero.ReadFromEnv s.env).1, s.Now.2)
        ∧ (c.NewAWSCredentials unmarshalAWS s).2.calls = s.calls) ∧
    ((AWSCredentials.zero.ReadFromEnv s.env).2 = none →
      (AWSCredentials.zero.ReadFromEnv s.env).1.Expired c.BufferSeconds s.Now.1 = true →
      c.NewAWSCredentials unmarshalAWS s = c.AWSLogin unmarshalAWS s.Now.2) ∧
    ((AWSCredentials.zero.ReadFromEnv s.env).2 ≠ none →
      c.NewAWSCredentials unmarshalAWS s = c.AWSLogin unmarshalAWS s) ∧
    ((AzureCredentials.zero.ReadFromEnv s.env).2 = none →
      (AzureCredentials.zero.ReadFromEnv s.env).1.Expired c.BufferSeconds s.Now.1 = false →
      c.NewAzureCredentials unmarshalAzure s
          = (.ok (AzureCredentials.zero.ReadFromEnv s.env).1, s.Now.2)
        ∧ (c.NewAzureCredentials unmarshalAzure s).2.calls = s.calls) ∧
    ((AzureCredentials.zero.ReadFromEnv s.env).2 = none →
      (AzureCredentials.zero.ReadFromEnv s.env).1.Expired c.BufferSeconds s.Now.1 = true →
      c.NewAzureCredentials unmarshalAzure s = c.AzureLogin unmarshalAzure s.Now.2) ∧
    ((AzureCredentials.zero.ReadFromEnv s.env).2 ≠ none →
      c.NewAzureCredentials unmarshalAzure s = c.AzureLogin unmarshalAzure s) := by
  unfold Config.NewAWSCredentials Config.NewAzureCredentials
  simp only [AWSLogin_match, AzureLogin_match]
  generalize AWSCredentials.zero.ReadFromEnv s.env = r
  generalize AzureCredentials.zero.ReadFromEnv s.env = rz
  rcases r with ⟨creds, _ | e⟩ <;> rcases rz with ⟨credsAz, _ | ez⟩ <;>
    refine ⟨?_, ?_, ?_, ?_, ?_, ?_⟩ <;> intros <;> simp_all <;> rfl

/-- C8 witness: the environment holds the AWS and Azure variables of a
    credential created at Unix second 1000 with duration 100, the buffer is
    30 and the command would fail. When the clock reads Unix second 1010 both
    providers return the cached credential and no command is run; when it
    reads Unix second 1200 the result is that of the login, which runs the
    provider's `vault` command; and a session start of 9223372036854775807,
    an instant Go holds in the far past, is expired, so the login runs. -/
theorem NewCredentials_cache_then_issue_witness :
    ((NewConfig "aws" "arole" "someone" 30).NewAWSCredentials (fun _ => .error "no json")
      ⟨⟨[("AWS_SESSION_START", "1000"), ("AWS_SESSION_DURATION", "100"),
        ("AWS_SESSION_VAULT_LEASE_ID", "vaultleaseid"), ("AWS_SESSION_TOKEN", "token"),
        ("AWS_SECRET_ACCESS_KEY", "supersecret"), ("AWS_ACCESS_KEY_ID", "SOMEACCESSKEYID"),
        ("ARM_SESSION_START", "1000"), ("ARM_SESSION_DURATION", "100"),
        ("ARM_SESSION_VAULT_LEASE_ID", "vaultleaseid"), ("ARM_CLIENT_SECRET", "supersecret"),
        ("ARM_CLIENT_ID", "id")]⟩,
        fun _ => ⟨1010, 0⟩, 0, fun _ => none, fun _ => ⟨"", true, 2⟩, []⟩).2.calls = [] ∧
    (NewConfig "aws" "arole" "someone" 30).NewAWSCredentials (fun _ => .error "no json")
      ⟨⟨[("AWS_SESSION_START", "1000"), ("AWS_SESSION_DURATION", "100"),
        ("AWS_SESSION_VAULT_LEASE_ID", "vaultleaseid"), ("AWS_SESSION_TOKEN", "token"),
        ("AWS_SECRET_ACCESS_KEY", "supersecret"), ("AWS_ACCESS_KEY_ID", "SOMEACCESSKEYID"),
        ("ARM_SESSION_START", "1000"), ("ARM_SESSION_DURATION", "100"),
        ("ARM_SESSION_VAULT_LEASE_ID", "vaultleaseid"), ("ARM_CLIENT_SECRET", "supersecret"),
        ("ARM_CLIENT_ID", "id")]⟩,
        fun _ => ⟨1200, 0⟩, 0, fun _ => none, fun _ => ⟨"", true, 2⟩, []⟩ =
      (NewConfig "aws" "arole" "someone" 30).AWSLogin (fun _ => .error "no json")
      ⟨⟨[("AWS_SESSION_START", "1000"), ("AWS_SESSION_DURATION", "100"),
        ("AWS_SESSION_VAULT_LEASE_ID", "vaultleaseid"), ("AWS_SESSION_TOKEN", "token"),
        ("AWS_SECRET_ACCESS_KEY", "supersecret"), ("AWS_ACCESS_KEY_ID", "SOMEACCESSKEYID"),
        ("ARM_SESSION_START", "1000"), ("ARM_SESSION_DURATION", "100"),
        ("ARM_SESSION_VAULT_LEASE_ID", "vaultleaseid"), ("ARM_CLIENT_SECRET", "supersecret"),
        ("ARM_CLIENT_ID", "id")]⟩,
        fun _ => ⟨1200, 0⟩, 1, fun _ => none, fun _ => ⟨"", true, 2⟩, []⟩ ∧
    ((NewConfig "aws" "arole" "someone" 30).NewAzureCredentials (fun _ => .error "no json")
      ⟨⟨[("AWS_SESSION_START", "1000"), ("AWS_SESSION_DURATION", "100"),
        ("AWS_SESSION_VAULT_LEASE_ID", "vaultleaseid"), ("AWS_SESSION_TOKEN", "token"),
        ("AWS_SECRET_ACCESS_KEY", "supersecret"), ("AWS_ACCESS_KEY_ID", "SOMEACCESSKEYID"),
        ("ARM_SESSION_START", "1000"), ("ARM_SESSION_DURATION", "100"),
        ("ARM_SESSION_VAULT_LEASE_ID", "vaultleaseid"), ("ARM_CLIENT_SECRET", "supersecret"),
        ("ARM_CLIENT_ID", "id")]⟩,
        fun _ => ⟨1010, 0⟩, 0, fun _ => none, fun _ => ⟨"", true, 2⟩, []⟩).2.calls = [] ∧
    (NewConfig "aws" "arole" "someone" 30).NewAzureCredentials (fun _ => .error "no json")
      ⟨⟨[("AWS_SESSION_START", "1000"), ("AWS_SESSION_DURATION", "100"),
        ("AWS_SESSION_VAULT_LEASE_ID", "vaultleaseid"), ("AWS_SESSION_TOKEN", "token"),
        ("AWS_SECRET_ACCESS_KEY", "supersecret"), ("AWS_ACCESS_KEY_ID", "SOMEACCESSKEYID"),
        ("ARM_SESSION_START", "1000"), ("ARM_SESSION_DURATION", "100"),
        ("ARM_SESSION_VAULT_LEASE_ID", "vaultleaseid"), ("ARM_CLIENT_SECRET", "supersecret"),
        ("ARM_CLIENT_ID", "id")]⟩,
        fun _ => ⟨1200, 0⟩, 0, fun _ => none, fun _ => ⟨"", true, 2⟩, []⟩ =
      (NewConfig "aws" "arole" "someone" 30).AzureLogin (fun _ => .error "no json")
      ⟨⟨[("AWS_SESSION_START", "1000"), ("AWS_SESSION_DURATION", "100"),
        ("AWS_SESSION_VAULT_LEASE_ID", "vaultleaseid"), ("AWS_SESSION_TOKEN", "token"),
        ("AWS_SECRET_ACCESS_KEY", "supersecret"), ("AWS_ACCESS_KEY_ID", "SOMEACCESSKEYID"),
        ("ARM_SESSION_START", "1000"), ("ARM_SESSION_DURATION", "100"),
        ("ARM_SESSION_VAULT_LEASE_ID", "vaultleaseid"), ("ARM_CLIENT_SECRET", "supersecret"),
        ("ARM_CLIENT_ID", "id")]⟩,
        fun _ => ⟨1200, 0⟩, 1, fun _ => none, fun _ => ⟨"", true, 2⟩, []⟩ ∧
    ((NewConfig "aws" "arole" "someone" 30).NewAzureCredentials (fun _ => .error "no json")
      ⟨⟨[("AWS_SESSION_START", "1000"), ("AWS_SESSION_DURATION", "100"),
        ("AWS_SESSION_VAULT_LEASE_ID", "vaultleaseid"), ("AWS_SESSION_TOKEN", "token"),
        ("AWS_SECRET_ACCESS_KEY", "supersecret"), ("AWS_ACCESS_KEY_ID", "SOMEACCESSKEYID"),
        ("ARM_SESSION_START", "1000"), ("ARM_SESSION_DURATION", "100"),
        ("ARM_SESSION_VAULT_LEASE_ID", "vaultleaseid"), ("ARM_CLIENT_SECRET", "supersecret"),
        ("ARM_CLIENT_ID", "id")]⟩,
        fun _ => ⟨1200, 0⟩, 0, fun _ => none, fun _ => ⟨"", true, 2⟩, []⟩).2.calls =
      [["vault", "read", "someone/creds/arole", "-format=json"]] ∧
    ((NewConfig "aws" "arole" "someone" 30).NewAWSCredentials (fun _ => .error "no json")
      ⟨⟨[("AWS_SESSION_START", "9223372036854775807"), ("AWS_SESSION_DURATION", "100"),
        ("AWS_SESSION_VAULT_LEASE_ID", "vaultleaseid"), ("AWS_SESSION_TOKEN", "token"),
        ("AWS_SECRET_ACCESS_KEY", "supersecret"), ("AWS_ACCESS_KEY_ID", "SOMEACCESSKEYID"),
        ("ARM_SESSION_START", "9223372036854775807"), ("ARM_SESSION_DURATION", "100"),
        ("ARM_SESSION_VAULT_LEASE_ID", "vaultleaseid"), ("ARM_CLIENT_SECRET", "supersecret"),
        ("ARM_CLIENT_ID", "id")]⟩,
        fun _ => ⟨1700000000, 0⟩, 0, fun _ => none, fun _ => ⟨"", true, 2⟩, []⟩).2.calls =
      [["vault", "write", "someone/sts/arole", "-format=json"]] :=
  ⟨((NewCredentials_cache_then_issue (NewConfig "aws" "arole" "someone" 30)
      (fun _ => .error "no json") (fun _ => .error "no json")
      ⟨⟨[("AWS_SESSION_START", "1000"), ("AWS_SESSION_DURATION", "100"),
        ("AWS_SESSION_VAULT_LEASE_ID", "vaultleaseid"), ("AWS_SESSION_TOKEN", "token"),
        ("AWS_SECRET_ACCESS_KEY", "supersecret"), ("AWS_ACCESS_KEY_ID", "SOMEACCESSKEYID"),
        ("ARM_SESSION_START", "1000"), ("ARM_SESSION_DURATION", "100"),
        ("ARM_SESSION_VAULT_LEASE_ID", "vaultleaseid"), ("ARM_CLIENT_SECRET", "supersecret"),
        ("ARM_CLIENT_ID", "id")]⟩,
        fun _ => ⟨1010, 0⟩, 0, fun _ => none, fun _ => ⟨"", true, 2⟩, []⟩).1
      (by decide) (by decide)).2,
   (NewCredentials_cache_then_issue (NewConfig "aws" "arole" "someone" 30)
      (fun _ => .error "no json") (fun _ => .error "no json")
      ⟨⟨[("AWS_SESSION_START", "1000"), ("AWS_SESSION_DURATION", "100"),
        ("AWS_SESSION_VAULT_LEASE_ID", "vaultleaseid"), ("AWS_SESSION_TOKEN", "token"),
        ("AWS_SECRET_ACCESS_KEY", "supersecret"), ("AWS_ACCESS_KEY_ID", "SOMEACCESSKEYID"),
        ("ARM_SESSION_START", "1000"), ("ARM_SESSION_DURATION", "100"),
        ("ARM_SESSION_VAULT_LEASE_ID", "vaultleaseid"), ("ARM_CLIENT_SECRET", "supersecret"),
        ("ARM_CLIENT_ID", "id")]⟩,
        fun _ => ⟨1200, 0⟩, 0, fun _ => none, fun _ => ⟨"", true, 2⟩, []⟩).2.1
      (by decide) (by decide),
   ((NewCredentials_cache_then_issue (NewConfig "aws" "arole" "someone" 30)
      (fun _ => .error "no json") (fun _ => .error "no json")
      ⟨⟨[("AWS_SESSION_START", "1000"), ("AWS_SESSION_DURATION", "100"),
        ("AWS_SESSION_VAULT_LEASE_ID", "vaultleaseid"), ("AWS_SESSION_TOKEN", "token"),
        ("AWS_SECRET_ACCESS_KEY", "supersecret"), ("AWS_ACCESS_KEY_ID", "SOMEACCESSKEYID"),
        ("ARM_SESSION_START", "1000"), ("ARM_SESSION_DURATION", "100"),
        ("ARM_SESSION_VAULT_LEASE_ID", "vaultleaseid"), ("ARM_CLIENT_SECRET", "supersecret"),
        ("ARM_CLIENT_ID", "id")]⟩,
        fun _ => ⟨1010, 0⟩, 0, fun _ => none, fun _ => ⟨"", true, 2⟩, []⟩).2.2.2.1
      (by decide) (by decide)).2,
   (NewCredentials_cache_then_issue (NewConfig "aws" "arole" "someone" 30)
      (fun _ => .error "no json") (fun _ => .error "no json")
      ⟨⟨[("AWS_SESSION_START", "1000"), ("AWS_SESSION_DURATION", "100"),
        ("AWS_SESSION_VAULT_LEASE_ID", "vaultleaseid"), ("AWS_SESSION_TOKEN", "token"),
        ("AWS_SECRET_ACCESS_KEY", "supersecret"), ("AWS_ACCESS_KEY_ID", "SOMEACCESSKEYID"),
        ("ARM_SESSION_START", "1000"), ("ARM_SESSION_DURATION", "100"),
        ("ARM_SESSION_VAULT_LEASE_ID", "vaultleaseid"), ("ARM_CLIENT_SECRET", "supersecret"),
        ("ARM_CLIENT_ID", "id")]⟩,
        fun _ => ⟨1200, 0⟩, 0, fun _ => none, fun _ => ⟨"", true, 2⟩, []⟩).2.2.2.2.1
      (by decide) (by decide),
   (congrArg (fun r => r.2.calls) ((NewCredentials_cache_then_issue (NewConfig "aws" "arole" "someone" 30)
      (fun _ => .error "no json") (fun _ => .error "no json")
      ⟨⟨[("AWS_SESSION_START", "1000"), ("AWS_SESSION_DURATION", "100"),
        ("AWS_SESSION_VAULT_LEASE_ID", "vaultleaseid"), ("AWS_SESSION_TOKEN", "token"),
        ("AWS_SECRET_ACCESS_KEY", "supersecret"), ("AWS_ACCESS_KEY_ID", "SOMEACCESSKEYID"),
        ("ARM_SESSION_START", "1000"), ("ARM_SESSION_DURATION", "100"),
        ("ARM_SESSION_VAULT_LEASE_ID", "vaultleaseid"), ("ARM_CLIENT_SECRET", "supersecret"),
        ("ARM_CLIENT_ID", "id")]⟩,
        fun _ => ⟨1200, 0⟩, 0, fun _ => none, fun _ => ⟨"", true, 2⟩, []⟩).2.2.2.2.1
      (by decide) (by decide))).trans (by decide),
   (congrArg (fun r => r.2.calls) ((NewCredentials_cache_then_issue (NewConfig "aws" "arole" "someone" 30)
      (fun _ => .error "no json") (fun _ => .error "no json")
      ⟨⟨[("AWS_SESSION_START", "9223372036854775807"), ("AWS_SESSION_DURATION", "100"),
        ("AWS_SESSION_VAULT_LEASE_ID", "vaultleaseid"), ("AWS_SESSION_TOKEN", "token"),
        ("AWS_SECRET_ACCESS_KEY", "supersecret"), ("AWS_ACCESS_KEY_ID", "SOMEACCESSKEYID"),
        ("ARM_SESSION_START", "9223372036854775807"), ("ARM_SESSION_DURATION", "100"),
        ("ARM_SESSION_VAULT_LEASE_ID", "vaultleaseid"), ("ARM_CLIENT_SECRET", "supersecret"),
        ("ARM_CLIENT_ID", "id")]⟩,
        fun _ => ⟨1700000000, 0⟩, 0, fun _ => none, fun _ => ⟨"", true, 2⟩, []⟩).2.1
      (by decide) (by decide))).trans (by decide)⟩

/-! ### Token check and configuration -/

/-- C9: when the token lookup command succeeds and its output decodes to a
    token with TTL `t`, `CheckToken` returns an error if and only if `t < 30`,
    and that error is "vault token will expire in less than 30 seconds". -/
theorem CheckToken_ttl (unmarshal : String → Except String Token) (s : Sys) (t : Int)
    (hrun : (s.run ["vault", "token", "lookup", "-format=json"]).failed = false)
    (hdec : unmarshal (s.run ["vault", "token", "lookup", "-format=json"]).data = .ok ⟨⟨t⟩⟩) :
    ((CheckToken unmarshal s).1 ≠ none ↔ t < 30) ∧
    (t < 30 → (CheckToken unmarshal s).1 =
      some (.errorf "vault token will expire in less than 30 seconds")) ∧
    (30 ≤ t → (CheckToken unmarshal s).1 = none) := by
  unfold CheckToken execute Sys.CombinedOutput
  simp only [hrun, Bool.false_eq_true, if_false, hdec]
  by_cases h : t < 30
  · simp [h]
  · simp [h]

/-- C9 witness: a lookup answering TTL 10 fails with the expiry error, while
    TTL 3600 and the boundary TTL 30 succeed. -/
theorem CheckToken_ttl_witness :
    (CheckToken (fun _ => .ok ⟨⟨10⟩⟩)
      ⟨GoMap.make, fun _ => ⟨0, 0⟩, 0, fun _ => none, fun _ => ⟨"{}", false, 0⟩, []⟩).1 =
      some (.errorf "vault token will expire in less than 30 seconds") ∧
    (CheckToken (fun _ => .ok ⟨⟨3600⟩⟩)
      ⟨GoMap.make, fun _ => ⟨0, 0⟩, 0, fun _ => none, fun _ => ⟨"{}", false, 0⟩, []⟩).1 = none ∧
    (CheckToken (fun _ => .ok ⟨⟨30⟩⟩)
      ⟨GoMap.make, fun _ => ⟨0, 0⟩, 0, fun _ => none, fun _ => ⟨"{}", false, 0⟩, []⟩).1 = none :=
  ⟨(CheckToken_ttl (fun _ => .ok ⟨⟨10⟩⟩)
      ⟨GoMap.make, fun _ => ⟨0, 0⟩, 0, fun _ => none, fun _ => ⟨"{}", false, 0⟩, []⟩ 10
      rfl rfl).2.1 (by decide),
   (CheckToken_ttl (fun _ => .ok ⟨⟨3600⟩⟩)
      ⟨GoMap.make, fun _ => ⟨0, 0⟩, 0, fun _ => none, fun _ => ⟨"{}", false, 0⟩, []⟩ 3600
      rfl rfl).2.2 (by decide),
   (CheckToken_ttl (fun _ => .ok ⟨⟨30⟩⟩)
      ⟨GoMap.make, fun _ => ⟨0, 0⟩, 0, fun _ => none, fun _ => ⟨"{}", false, 0⟩, []⟩ 30
      rfl rfl).2.2 (by decide)⟩

/-- C10: for every partition, role, path and buffer, `NewConfig` returns a
    `Config` with `Role = role`, `Path = path`, `BufferSeconds = buffer`, and
    `AWSBaseURL` equal to "aws.amazon.com" for partition "aws", to
    "amazonaws-us-gov.com" for partition "gov", and empty for every other
    partition. -/
theorem NewConfig_fields (partition role path : String) (buffer : Int) :
    (NewConfig partition role path buffer).Role = role ∧
    (NewConfig partition role path buffer).Path = path ∧
    (NewConfig partition role path buffer).BufferSeconds = buffer ∧
    (NewConfig partition role path buffer).AWSBaseURL =
      (if partition = "aws" then "aws.amazon.com"
       else if partition = "gov" then "amazonaws-us-gov.com" else "") := by
  unfold NewConfig BaseURLDefault BaseURLGovCloud
  split_ifs <;> exact ⟨rfl, rfl, rfl, rfl⟩

/-! ### Expiration policy: zero, negative and exhausted windows -/

theorem expired_of_bounded_window (buffer duration : Int) (created now : Time)
    (h0 : -9223372036 ≤ duration - buffer) (h1 : duration - buffer ≤ 9223372036) :
    expired buffer duration created now =
      decide (now.nanosBetween created > (duration - buffer) * Second) := by
  simp only [expired, Since, Time.Sub]
  rw [wrapInt64_seconds _ h0 h1]
  rw [decide_eq_decide]
  generalize now.nanosBetween created = e
  unfold Second minInt64 maxInt64
  split_ifs <;> constructor <;> intro h <;> omega

/-- C11 (amended): for every creation time, every duration `<= 0` and every
    buffer `>= duration` with `buffer - duration` at most 9223372036 seconds,
    `expired` is true at every instant strictly after creation; when
    `buffer > duration` it is true at every instant not before creation, the
    instant of creation included. -/
theorem expired_nonpositive_duration (buffer duration : Int) (created now : Time)
    (_hd : duration ≤ 0) (hge : duration ≤ buffer) (hbound : buffer - duration ≤ 9223372036) :
    (0 < now.nanosBetween created → expired buffer duration created now = true) ∧
    (duration < buffer → 0 ≤ now.nanosBetween created →
      expired buffer duration created now = true) := by
  rw [expired_of_bounded_window _ _ _ _ (by omega) (by omega)]
  simp only [decide_eq_true_eq]
  unfold Second
  constructor
  · intro h; omega
  · intro h1 h2; omega

/-- C11 witness: duration 0 with buffer 30 is expired at the instant of
    creation and one nanosecond later; duration -200 with buffer -100 is
    expired at the instant of creation and fifty seconds later; duration 0
    with buffer 0 is expired one nanosecond after creation. -/
theorem expired_nonpositive_duration_witness :
    expired 30 0 ⟨1000, 0⟩ ⟨1000, 1⟩ = true ∧ expired 30 0 ⟨1000, 0⟩ ⟨1000, 0⟩ = true ∧
    expired (-100) (-200) ⟨1000, 0⟩ ⟨1000, 0⟩ = true ∧
    expired (-100) (-200) ⟨1000, 0⟩ ⟨1050, 0⟩ = true ∧
    expired 0 0 ⟨1000, 0⟩ ⟨1000, 1⟩ = true :=
  ⟨(expired_nonpositive_duration 30 0 ⟨1000, 0⟩ ⟨1000, 1⟩ (by decide) (by decide)
      (by decide)).1 (by decide),
   (expired_nonpositive_duration 30 0 ⟨1000, 0⟩ ⟨1000, 0⟩ (by decide) (by decide)
      (by decide)).2 (by decide) (by decide),
   (expired_nonpositive_duration (-100) (-200) ⟨1000, 0⟩ ⟨1000, 0⟩ (by decide) (by decide)
      (by decide)).2 (by decide) (by decide),
   (expired_nonpositive_duration (-100) (-200) ⟨1000, 0⟩ ⟨1050, 0⟩ (by decide) (by decide)
      (by decide)).2 (by decide) (by decide),
   (expired_nonpositive_duration 0 0 ⟨1000, 0⟩ ⟨1000, 1⟩ (by decide) (by decide)
      (by decide)).1 (by decide)⟩

/-- C11 counterexample: with duration 0 the credential is reported not
    expired at the instant of creation when the buffer is 0, fifty seconds
    after creation when the buffer is -100, and one second after creation when
    the buffer is 10000000000 (the window in nanoseconds wraps to a positive
    `int64`). -/
theorem expired_zero_duration_not_expired :
    expired 0 0 ⟨1000, 0⟩ ⟨1000, 0⟩ = false ∧
    expired (-100) 0 ⟨1000, 0⟩ ⟨1050, 0⟩ = false ∧
    (IsInt64 10000000000 ∧ expired 10000000000 0 ⟨1000, 0⟩ ⟨1001, 0⟩ = false) := by
  decide

/-- C12 (amended): for every creation time and all buffer and duration with
    `buffer >= duration` and `buffer - duration` at most 9223372036 seconds,
    `expired` is true as soon as any positive amount of time has elapsed since
    creation. -/
theorem expired_buffer_ge_duration (buffer duration : Int) (created now : Time)
    (hge : duration ≤ buffer) (hbound : buffer - duration ≤ 9223372036)
    (hpos : 0 < now.nanosBetween created) :
    expired buffer duration created now = true := by
  rw [expired_of_bounded_window _ _ _ _ (by omega) (by omega)]
  simp only [decide_eq_true_eq]
  unfold Second
  omega

/-- C12 witness: buffer 100 against duration 30, and buffer equal to duration,
    are expired one nanosecond after creation. -/
theorem expired_buffer_ge_duration_witness :
    expired 100 30 ⟨1000, 0⟩ ⟨1000, 1⟩ = true ∧ expired 100 100 ⟨1000, 0⟩ ⟨1000, 1⟩ = true :=
  ⟨expired_buffer_ge_duration 100 30 ⟨1000, 0⟩ ⟨1000, 1⟩ (by decide) (by decide) (by decide),
   expired_buffer_ge_duration 100 100 ⟨1000, 0⟩ ⟨1000, 1⟩ (by decide) (by decide) (by decide)⟩

/-- C12 counterexample: buffer 10000000000 and duration 30 are `int64` values
    with `buffer >= duration`, yet one second after creation `expired` is false,
    because the window in nanoseconds wraps to a positive `int64`; the same
    happens 500 nanoseconds after creation for the largest buffer and the
    smallest duration, whose difference wraps to one second. -/
theorem expired_large_buffer_not_expired :
    IsInt64 10000000000 ∧ IsInt64 30 ∧ (30 : Int) ≤ 10000000000 ∧
    expired 10000000000 30 ⟨1000, 0⟩ ⟨1001, 0⟩ = false ∧
    IsInt64 9223372036854775807 ∧ IsInt64 (-9223372036854775808) ∧
    expired 9223372036854775807 (-9223372036854775808) ⟨1000, 0⟩ ⟨1000, 500⟩ = false := by
  decide

/-! ### Backend login (`AWSLogin`, `AzureLogin`) -/

/-- C13: when the `vault write` command succeeds and its output decodes to an
    envelope with non-empty `lease_id`, `data.access_key`, `data.secret_key`
    and `data.security_token`, `AWSLogin` returns a credential with
    `LeaseID = lease_id`, `Duration = lease_duration`, the three secrets taken
    from the data fields, `Created` the clock reading taken by `time.Now()`,
    and an `EnvMap` in which `AWS_ACCESS_KEY_ID` is `data.access_key`. -/
theorem AWSLogin_decoded (c : Config)
    (unmarshal : String → Except String vaultAWSCredentials) (s : Sys)
    (creds : vaultAWSCredentials)
    (hrun : (s.run ["vault", "write", c.Path ++ "/sts/" ++ c.Role, "-format=json"]).failed
      = false)
    (hdec : unmarshal (s.run ["vault", "write", c.Path ++ "/sts/" ++ c.Role,
      "-format=json"]).data = .ok creds)
    (h1 : creds.LeaseID ≠ "") (h2 : creds.Data.AccessKey ≠ "")
    (h3 : creds.Data.SecretKey ≠ "") (h4 : creds.Data.SecurityToken ≠ "") :
    ∃ ret : AWSCredentials, (c.AWSLogin unmarshal s).1 = .ok ret ∧
      ret.LeaseID = creds.LeaseID ∧ ret.Duration = creds.LeaseDuration ∧
      ret.AccessKeyID = creds.Data.AccessKey ∧ ret.SecretAccessKey = creds.Data.SecretKey ∧
      ret.SessionToken = creds.Data.SecurityToken ∧ ret.Created = s.clock s.reads ∧
      ret.EnvMap.get? "AWS_ACCESS_KEY_ID" = some creds.Data.AccessKey := by
  have hb := AWS_buildEnv_entries ⟨creds.Data.AccessKey, creds.Data.SecretKey,
    creds.Data.SecurityToken, s.clock s.reads, creds.LeaseDuration, creds.LeaseID,
    GoMap.make⟩ h2 h3 h4 h1
  unfold Config.AWSLogin Sys.CombinedOutput Sys.Now
  simp only [hrun, Bool.false_eq_true, if_false, hdec, hb]
  exact ⟨_, rfl, rfl, rfl, rfl, rfl, rfl, rfl, by simp [GoMap.get?, lookupEntry]⟩

/-- C13 witness: the envelope with `lease_id` "L1", `lease_duration` 30 and
    data "AK", "SK", "TOK" gives `LeaseID` "L1", `Duration` 30 and
    `AWS_ACCESS_KEY_ID=AK`. -/
theorem AWSLogin_decoded_witness :
    ∃ ret : AWSCredentials,
      ((NewConfig "aws" "arole" "someone" 30).AWSLogin
        (fun _ => .ok ⟨"", "L1", 30, false, ⟨"AK", "SK", "TOK"⟩⟩)
        ⟨GoMap.make, fun _ => ⟨1000, 0⟩, 0, fun _ => none,
          fun _ => ⟨"\x7b\"lease_id\":\"L1\",\"lease_duration\":30,\"data\":\x7b\"access_key\":\"AK\",\"secret_key\":\"SK\",\"security_token\":\"TOK\"\x7d\x7d", false, 0⟩, []⟩).1 = .ok ret ∧
      ret.LeaseID = "L1" ∧ ret.Duration = 30 ∧
      ret.EnvMap.get? "AWS_ACCESS_KEY_ID" = some "AK" :=
  (AWSLogin_decoded (NewConfig "aws" "arole" "someone" 30)
    (fun _ => .ok ⟨"", "L1", 30, false, ⟨"AK", "SK", "TOK"⟩⟩)
    ⟨GoMap.make, fun _ => ⟨1000, 0⟩, 0, fun _ => none,
      fun _ => ⟨"\x7b\"lease_id\":\"L1\",\"lease_duration\":30,\"data\":\x7b\"access_key\":\"AK\",\"secret_key\":\"SK\",\"security_token\":\"TOK\"\x7d\x7d", false, 0⟩, []⟩
    ⟨"", "L1", 30, false, ⟨"AK", "SK", "TOK"⟩⟩ rfl rfl
    (by decide) (by decide) (by decide) (by decide)).imp
    (fun _ h => ⟨h.1, h.2.1, h.2.2.1, h.2.2.2.2.2.2.2⟩)

/-- C14 (amended): when the backend command succeeds but `json.Unmarshal`
    rejects its output with message `msg`, `AWSLogin` and `AzureLogin` fail with
    an error whose message is exactly "error unmarshaling vault token: "
    followed by `msg`. -/
theorem Login_decode_failure (c : Config)
    (unmarshalAWS : String → Except String vaultAWSCredentials)
    (unmarshalAzure : String → Except String vaultAzureCredentials) (s : Sys)
    (msgAWS msgAzure : String)
    (hrunAWS : (s.run ["vault", "write", c.Path ++ "/sts/" ++ c.Role, "-format=json"]).failed
      = false)
    (hdecAWS : unmarshalAWS (s.run ["vault", "write", c.Path ++ "/sts/" ++ c.Role,
      "-format=json"]).data = .error msgAWS)
    (hrunAzure : (s.run ["vault", "read", c.Path ++ "/creds/" ++ c.Role,
      "-format=json"]).failed = false)
    (hdecAzure : unmarshalAzure (s.run ["vault", "read", c.Path ++ "/creds/" ++ c.Role,
      "-format=json"]).data = .error msgAzure) :
    (c.AWSLogin unmarshalAWS s).1
      = .error (.errorf ("error unmarshaling vault token: " ++ msgAWS)) ∧
    (c.AzureLogin unmarshalAzure s).1
      = .error (.errorf ("error unmarshaling vault token: " ++ msgAzure)) := by
  unfold Config.AWSLogin Config.AzureLogin Sys.CombinedOutput
  simp [hrunAWS, hrunAzure, hdecAWS, hdecAzure]

/-- C14 witness: the command succeeds with an envelope cut off after its
    lease id, which the decoder rejects with "unexpected end of JSON input";
    both logins fail with
    "error unmarshaling vault token: unexpected end of JSON input". -/
theorem Login_decode_failure_witness :
    ((NewConfig "aws" "arole" "someone" 30).AWSLogin
      (fun _ => .error "unexpected end of JSON input")
      ⟨GoMap.make, fun _ => ⟨1000, 0⟩, 0, fun _ => none,
        fun _ => ⟨"\x7b\"request_id\":\"r1\",\"lease_id\":\"L1\"", false, 0⟩, []⟩).1
      = .error (.errorf "error unmarshaling vault token: unexpected end of JSON input") ∧
    ((NewConfig "aws" "arole" "someone" 30).AzureLogin
      (fun _ => .error "unexpected end of JSON input")
      ⟨GoMap.make, fun _ => ⟨1000, 0⟩, 0, fun _ => none,
        fun _ => ⟨"\x7b\"request_id\":\"r1\",\"lease_id\":\"L1\"", false, 0⟩, []⟩).1
      = .error (.errorf "error unmarshaling vault token: unexpected end of JSON input") :=
  Login_decode_failure (NewConfig "aws" "arole" "someone" 30)
    (fun _ => .error "unexpected end of JSON input")
    (fun _ => .error "unexpected end of JSON input")
    ⟨GoMap.make, fun _ => ⟨1000, 0⟩, 0, fun _ => none,
        fun _ => ⟨"\x7b\"request_id\":\"r1\",\"lease_id\":\"L1\"", false, 0⟩, []⟩
    "unexpected end of JSON input" "unexpected end of JSON input" rfl rfl rfl rfl

/-- C14 counterexample: the command succeeds with a truncated envelope that
    stops after the key "lease_id", which the decoder rejects with "unexpected
    end of JSON input"; both logins fail with a message that does not contain
    that output. -/
theorem decode_error_message_omits_payload :
    ((NewConfig "aws" "arole" "someone" 30).AWSLogin
      (fun _ => .error "unexpected end of JSON input")
      ⟨GoMap.make, fun _ => ⟨1000, 0⟩, 0, fun _ => none,
        fun _ => ⟨"\x7b\"lease_id\":", false, 0⟩, []⟩).1
      = .error (.errorf "error unmarshaling vault token: unexpected end of JSON input") ∧
    ((NewConfig "aws" "arole" "someone" 30).AzureLogin
      (fun _ => .error "unexpected end of JSON input")
      ⟨GoMap.make, fun _ => ⟨1000, 0⟩, 0, fun _ => none,
        fun _ => ⟨"\x7b\"lease_id\":", false, 0⟩, []⟩).1
      = .error (.errorf "error unmarshaling vault token: unexpected end of JSON input") ∧
    Contains "error unmarshaling vault token: unexpected end of JSON input"
      "\x7b\"lease_id\":" = false :=
  ⟨rfl, rfl, by decide⟩

/-! ### Determinism and failure frame of `buildEnv` -/

theorem AWS_buildEnv_ignores_EnvMap (a : AWSCredentials) (m : GoMap) :
    ({ a with EnvMap := m } : AWSCredentials).buildEnv = a.buildEnv := rfl

theorem Azure_buildEnv_ignores_EnvMap (az : AzureCredentials) (m : GoMap) :
    ({ az with EnvMap := m } : AzureCredentials).buildEnv = az.buildEnv := rfl

theorem AWS_buildEnv_frame (a : AWSCredentials) :
    a.buildEnv.1 = { a with EnvMap := a.buildEnv.1.EnvMap } := by
  unfold AWSCredentials.buildEnv
  split_ifs <;> rfl

theorem Azure_buildEnv_frame (az : AzureCredentials) :
    az.buildEnv.1 = { az with EnvMap := az.buildEnv.1.EnvMap } := by
  unfold AzureCredentials.buildEnv
  split_ifs <;> rfl

theorem AWS_buildEnv_idempotent (a : AWSCredentials) : a.buildEnv.1.buildEnv = a.buildEnv := by
  rw [AWS_buildEnv_frame a]
  exact AWS_buildEnv_ignores_EnvMap a _

theorem Azure_buildEnv_idempotent (az : AzureCredentials) :
    az.buildEnv.1.buildEnv = az.buildEnv := by
  rw [Azure_buildEnv_frame az]
  exact Azure_buildEnv_ignores_EnvMap az _

/-- C15: `buildEnv` is deterministic and idempotent for each provider. Two
    credentials that agree on the secret fields, `Created`, `Duration` and
    `LeaseID`, whatever their previous `EnvMap`s, get the same `EnvMap` and the
    same error; and calling `buildEnv` again on the credential it produced
    gives the same credential and the same error. -/
theorem buildEnv_deterministic (a b : AWSCredentials) (az bz : AzureCredentials)
    (hK : a.AccessKeyID = b.AccessKeyID) (hS : a.SecretAccessKey = b.SecretAccessKey)
    (hT : a.SessionToken = b.SessionToken) (hC : a.Created = b.Created)
    (hD : a.Duration = b.Duration) (hL : a.LeaseID = b.LeaseID)
    (hzI : az.ClientID = bz.ClientID) (hzS : az.ClientSecret = bz.ClientSecret)
    (hzC : az.Created = bz.Created) (hzD : az.Duration = bz.Duration)
    (hzL : az.LeaseID = bz.LeaseID) :
    (a.buildEnv.1.EnvMap = b.buildEnv.1.EnvMap ∧ a.buildEnv.2 = b.buildEnv.2 ∧
      a.buildEnv.1.buildEnv = a.buildEnv) ∧
    (az.buildEnv.1.EnvMap = bz.buildEnv.1.EnvMap ∧ az.buildEnv.2 = bz.buildEnv.2 ∧
      az.buildEnv.1.buildEnv = az.buildEnv) := by
  have hb : b = { a with EnvMap := b.EnvMap } := by
    cases a; cases b
    dsimp only at hK hS hT hC hD hL
    subst hK hS hT hC hD hL
    rfl
  have hbz : bz = { az with EnvMap := bz.EnvMap } := by
    cases az; cases bz
    dsimp only at hzI hzS hzC hzD hzL
    subst hzI hzS hzC hzD hzL
    rfl
  have e1 : b.buildEnv = a.buildEnv := by
    rw [hb]; exact AWS_buildEnv_ignores_EnvMap a _
  have e2 : bz.buildEnv = az.buildEnv := by
    rw [hbz]; exact Azure_buildEnv_ignores_EnvMap az _
  rw [e1, e2]
  exact ⟨⟨rfl, rfl, AWS_buildEnv_idempotent a⟩, ⟨rfl, rfl, Azure_buildEnv_idempotent az⟩⟩

/-- C15 witness: the credentials of the repository's tests get the same map
    and error whether they start from an empty `EnvMap` or from one holding a
    stale entry, and a second `buildEnv` changes nothing. -/
theorem buildEnv_deterministic_witness :
    ((AWSCredentials.buildEnv ⟨"SOMEACCESSKEYID", "supersecret", "token", Time.ofUnix 1 0, 30,
        "vaultleaseid", GoMap.make⟩).1.EnvMap =
      (AWSCredentials.buildEnv ⟨"SOMEACCESSKEYID", "supersecret", "token", Time.ofUnix 1 0, 30,
        "vaultleaseid", ⟨[("STALE", "x")]⟩⟩).1.EnvMap) ∧
    ((AzureCredentials.buildEnv ⟨"id", "supersecret", Time.ofUnix 1 0, 30, "vaultleaseid",
        GoMap.make⟩).1.buildEnv =
      AzureCredentials.buildEnv ⟨"id", "supersecret", Time.ofUnix 1 0, 30, "vaultleaseid",
        GoMap.make⟩) :=
  have h := buildEnv_deterministic
    ⟨"SOMEACCESSKEYID", "supersecret", "token", Time.ofUnix 1 0, 30, "vaultleaseid", GoMap.make⟩
    ⟨"SOMEACCESSKEYID", "supersecret", "token", Time.ofUnix 1 0, 30, "vaultleaseid",
      ⟨[("STALE", "x")]⟩⟩
    ⟨"id", "supersecret", Time.ofUnix 1 0, 30, "vaultleaseid", GoMap.make⟩
    ⟨"id", "supersecret", Time.ofUnix 1 0, 30, "vaultleaseid", ⟨[("STALE", "x")]⟩⟩
    rfl rfl rfl rfl rfl rfl rfl rfl rfl rfl rfl
  ⟨h.1.1, h.2.2.2⟩

/-- C16: when `buildEnv` fails, the previous `EnvMap` is replaced by a map
    holding exactly the entries of the required fields checked before the
    first empty one, in the order access key id, secret access key, session
    token with its security-token duplicate, lease id for AWS and client id,
    client secret, lease id for Azure; the error is the one of the first
    empty field; the map holds no session start or duration entry; and every
    field other than `EnvMap` is unchanged. -/
theorem buildEnv_failure_frame (a : AWSCredentials) (az : AzureCredentials) :
    (a.AccessKeyID = "" →
      a.buildEnv = ({ a with EnvMap := ⟨[]⟩ },
        some (.errorf "cannot set env: access key id was empty"))) ∧
    (a.AccessKeyID ≠ "" → a.SecretAccessKey = "" →
      a.buildEnv = ({ a with EnvMap := ⟨[("AWS_ACCESS_KEY_ID", a.AccessKeyID)]⟩ },
        some (.errorf "cannot set env: secret access key was empty"))) ∧
    (a.AccessKeyID ≠ "" → a.SecretAccessKey ≠ "" → a.SessionToken = "" →
      a.buildEnv = ({ a with EnvMap := ⟨[("AWS_SECRET_ACCESS_KEY", a.SecretAccessKey),
          ("AWS_ACCESS_KEY_ID", a.AccessKeyID)]⟩ },
        some (.errorf "cannot set env: session token was empty"))) ∧
    (a.AccessKeyID ≠ "" → a.SecretAccessKey ≠ "" → a.SessionToken ≠ "" → a.LeaseID = "" →
      a.buildEnv = ({ a with EnvMap := ⟨[("AWS_SECURITY_TOKEN", a.SessionToken),
          ("AWS_SESSION_TOKEN", a.SessionToken),
          ("AWS_SECRET_ACCESS_KEY", a.SecretAccessKey),
          ("AWS_ACCESS_KEY_ID", a.AccessKeyID)]⟩ },
        some (.errorf "cannot set env: vault lease id was empty"))) ∧
    (a.buildEnv.2 ≠ none →
      a.buildEnv.1.EnvMap.get? "AWS_SESSION_START" = none ∧
      a.buildEnv.1.EnvMap.get? "AWS_SESSION_DURATION" = none ∧
      a.buildEnv.1 = { a with EnvMap := a.buildEnv.1.EnvMap }) ∧
    (az.ClientID = "" →
      az.buildEnv = ({ az with EnvMap := ⟨[]⟩ },
        some (.errorf "cannot set env: client id was empty"))) ∧
    (az.ClientID ≠ "" → az.ClientSecret = "" →
      az.buildEnv = ({ az with EnvMap := ⟨[("ARM_CLIENT_ID", az.ClientID)]⟩ },
        some (.errorf "cannot set env: client secret was empty"))) ∧
    (az.ClientID ≠ "" → az.ClientSecret ≠ "" → az.LeaseID = "" →
      az.buildEnv = ({ az with EnvMap := ⟨[("ARM_CLIENT_SECRET", az.ClientSecret),
          ("ARM_CLIENT_ID", az.ClientID)]⟩ },
        some (.errorf "cannot set env: vault least id was empty"))) ∧
    (az.buildEnv.2 ≠ none →
      az.buildEnv.1.EnvMap.get? "ARM_SESSION_START" = none ∧
      az.buildEnv.1.EnvMap.get? "ARM_SESSION_DURATION" = none ∧
      az.buildEnv.1 = { az with EnvMap := az.buildEnv.1.EnvMap }) := by
  refine ⟨?_, ?_, ?_, ?_, ?_, ?_, ?_, ?_, ?_⟩
  · intro h1
    simp [AWSCredentials.buildEnv, h1, GoMap.make]
  · intro h1 h2
    simp [AWSCredentials.buildEnv, h1, h2, GoMap.make, GoMap.set]
  · intro h1 h2 h3
    simp [AWSCredentials.buildEnv, h1, h2, h3, GoMap.make, GoMap.set]
  · intro h1 h2 h3 h4
    simp [AWSCredentials.buildEnv, h1, h2, h3, h4, GoMap.make, GoMap.set]
  · intro h
    refine ⟨?_, ?_, AWS_buildEnv_frame a⟩ <;>
    · revert h
      unfold AWSCredentials.buildEnv
      split_ifs <;> simp [GoMap.make, GoMap.set, GoMap.get?, lookupEntry]
  · intro h1
    simp [AzureCredentials.buildEnv, h1, GoMap.make]
  · intro h1 h2
    simp [AzureCredentials.buildEnv, h1, h2, GoMap.make, GoMap.set]
  · intro h1 h2 h3
    simp [AzureCredentials.buildEnv, h1, h2, h3, GoMap.make, GoMap.set]
  · intro h
    refine ⟨?_, ?_, Azure_buildEnv_frame az⟩ <;>
    · revert h
      unfold AzureCredentials.buildEnv
      split_ifs <;> simp [GoMap.make, GoMap.set, GoMap.get?, lookupEntry]

/-- C16 witness: the test credentials with only the lease id empty, starting
    from an `EnvMap` with a stale entry, end with the entries checked before
    the lease id and nothing else: four entries for AWS, two for Azure. -/
theorem buildEnv_failure_frame_witness :
    (AWSCredentials.buildEnv ⟨"SOMEACCESSKEYID", "supersecret", "token", Time.ofUnix 1 0, 30,
        "", ⟨[("STALE", "x")]⟩⟩).1.EnvMap =
      ⟨[("AWS_SECURITY_TOKEN", "token"), ("AWS_SESSION_TOKEN", "token"),
        ("AWS_SECRET_ACCESS_KEY", "supersecret"), ("AWS_ACCESS_KEY_ID", "SOMEACCESSKEYID")]⟩ ∧
    (AzureCredentials.buildEnv ⟨"id", "supersecret", Time.ofUnix 1 0, 30, "",
        ⟨[("STALE", "x")]⟩⟩).1.EnvMap =
      ⟨[("ARM_CLIENT_SECRET", "supersecret"), ("ARM_CLIENT_ID", "id")]⟩ :=
  have h := buildEnv_failure_frame
    ⟨"SOMEACCESSKEYID", "supersecret", "token", Time.ofUnix 1 0, 30, "", ⟨[("STALE", "x")]⟩⟩
    ⟨"id", "supersecret", Time.ofUnix 1 0, 30, "", ⟨[("STALE", "x")]⟩⟩
  ⟨congrArg (fun r => r.1.EnvMap) (h.2.2.2.1 (by decide) (by decide) (by decide) rfl),
   congrArg (fun r => r.1.EnvMap) (h.2.2.2.2.2.2.2.1 (by decide) (by decide) rfl)⟩

end Vaultutil
